import Mathlib

/-!
Shallow embedding of the `rt_api` client library (files `rt_api/models.py` and
`rt_api/api.py`) and proofs about its specified behaviour.

Python values decoded from JSON are modelled by the inductive type `Json`
(`Json.null` stands for Python `None`).  Python exceptions are modelled by the
`Err` type and fallible code returns `Except Err _`.  Network traffic is
modelled by explicit oracles (functions from requests to responses) and by
returning the list of requests an operation issued.
-/

set_option maxRecDepth 4000

namespace RtApi

/-- A parsed-JSON Python value (the result of `response.json()` / the input of
the model constructors).  `null` is Python `None`. -/
inductive Json where
  | null : Json
  | bool : Bool → Json
  | num : Int → Json
  | str : String → Json
  | arr : List Json → Json
  | obj : List (String × Json) → Json
deriving Repr

mutual
/-- Python `==` on parsed-JSON values (structural equality in this model). -/
def Json.beq : Json → Json → Bool
  | .null, .null => true
  | .bool a, .bool b => a == b
  | .num a, .num b => a == b
  | .str a, .str b => a == b
  | .arr xs, .arr ys => Json.beqList xs ys
  | .obj xs, .obj ys => Json.beqObj xs ys
  | _, _ => false

def Json.beqList : List Json → List Json → Bool
  | [], [] => true
  | x :: xs, y :: ys => Json.beq x y && Json.beqList xs ys
  | _, _ => false

def Json.beqObj : List (String × Json) → List (String × Json) → Bool
  | [], [] => true
  | (k1, v1) :: xs, (k2, v2) :: ys => k1 == k2 && Json.beq v1 v2 && Json.beqObj xs ys
  | _, _ => false
end

mutual
theorem Json.eq_of_beq : ∀ {a b : Json}, Json.beq a b = true → a = b
  | .null, .null, _ => rfl
  | .bool a, .bool b, h => by
    simp only [Json.beq, beq_iff_eq] at h; rw [h]
  | .num a, .num b, h => by
    simp only [Json.beq, beq_iff_eq] at h; rw [h]
  | .str a, .str b, h => by
    simp only [Json.beq, beq_iff_eq] at h; rw [h]
  | .arr xs, .arr ys, h => by
    have h2 : xs = ys := Json.eqList_of_beq (by simpa only [Json.beq] using h)
    rw [h2]
  | .obj xs, .obj ys, h => by
    have h2 : xs = ys := Json.eqObj_of_beq (by simpa only [Json.beq] using h)
    rw [h2]

theorem Json.eqList_of_beq : ∀ {xs ys : List Json}, Json.beqList xs ys = true → xs = ys
  | [], [], _ => rfl
  | x :: xs, y :: ys, h => by
    simp only [Json.beqList, Bool.and_eq_true] at h
    rw [Json.eq_of_beq h.1, Json.eqList_of_beq h.2]

theorem Json.eqObj_of_beq : ∀ {xs ys : List (String × Json)}, Json.beqObj xs ys = true → xs = ys
  | [], [], _ => rfl
  | (k1, v1) :: xs, (k2, v2) :: ys, h => by
    simp only [Json.beqObj, Bool.and_eq_true, beq_iff_eq] at h
    rw [h.1.1, Json.eq_of_beq h.1.2, Json.eqObj_of_beq h.2]
end

mutual
theorem Json.beq_refl : ∀ (a : Json), Json.beq a a = true
  | .null => rfl
  | .bool a => by simp [Json.beq]
  | .num a => by simp [Json.beq]
  | .str a => by simp [Json.beq]
  | .arr xs => by simpa only [Json.beq] using Json.beqList_refl xs
  | .obj xs => by simpa only [Json.beq] using Json.beqObj_refl xs

theorem Json.beqList_refl : ∀ (xs : List Json), Json.beqList xs xs = true
  | [] => rfl
  | x :: xs => by
    simp only [Json.beqList, Bool.and_eq_true]
    exact ⟨Json.beq_refl x, Json.beqList_refl xs⟩

theorem Json.beqObj_refl : ∀ (xs : List (String × Json)), Json.beqObj xs xs = true
  | [] => rfl
  | (k, v) :: xs => by
    simp only [Json.beqObj, Bool.and_eq_true, beq_self_eq_true]
    exact ⟨⟨trivial, Json.beq_refl v⟩, Json.beqObj_refl xs⟩
end

instance : DecidableEq Json := fun a b =>
  if h : Json.beq a b = true then isTrue (Json.eq_of_beq h)
  else isFalse (fun he => h (he ▸ Json.beq_refl a))

/-- Python exception kinds that the embedded code can raise, plus the two
domain errors of `rt_api.api`.  `httpError s` is `requests.exceptions.HTTPError`
raised by `raise_for_status` on status `s`. -/
inductive Err where
  | keyError : Err
  | typeError : Err
  | attributeError : Err
  | valueError : Err
  | httpError : Nat → Err
  | notImplementedError : Err
  | notAuthenticated : Err
  | authError : Json → Err
deriving DecidableEq, Repr

/-- Python truthiness of a parsed-JSON value (`if data:`). -/
def Json.truthy : Json → Bool
  | .null => false
  | .bool b => b
  | .num n => n != 0
  | .str s => s ≠ ""
  | .arr xs => !xs.isEmpty
  | .obj kvs => !kvs.isEmpty

/-- Python `d[k]` subscription by a string key: objects look the key up
(`KeyError` when absent), every other value raises `TypeError`. -/
def Json.getItem : Json → String → Except Err Json
  | .obj kvs, k =>
    match kvs.find? (fun p => p.1 = k) with
    | some p => .ok p.2
    | none => .error .keyError
  | _, _ => .error .typeError

/-- Substring test on character lists (Python `k in s` for strings). -/
def strContains (hay needle : List Char) : Bool :=
  (List.range (hay.length + 1)).any (fun i => needle.isPrefixOf (hay.drop i))

/-- Python `k in d` membership test: key test on objects, element test on
lists, substring test on strings, `TypeError` otherwise. -/
def Json.hasKey : Json → String → Except Err Bool
  | .obj kvs, k => .ok (kvs.any (fun p => p.1 = k))
  | .arr xs, k => .ok (xs.contains (Json.str k))
  | .str s, k => .ok (strContains s.data k.data)
  | _, _ => .error .typeError

/-- Python `for x in d` iteration: elements of a list, keys of a dict,
one-character strings of a string, `TypeError` otherwise. -/
def Json.iter : Json → Except Err (List Json)
  | .arr xs => .ok xs
  | .obj kvs => .ok (kvs.map (fun p => Json.str p.1))
  | .str s => .ok (s.data.map (fun c => Json.str (String.mk [c])))
  | _ => .error .typeError

/-- `ApiObject._get_from_dict`: walk `map_list` (a key path) through nested
subscriptions.  A plain-string Python `map_list` is the singleton path. -/
def getFromDict (data : Json) : List String → Except Err Json
  | [] => .ok data
  | k :: ks => do
    let d ← data.getItem k
    getFromDict d ks

/-- An attribute table (`self.attrs`): attribute name to key path.  A Python
plain-string value is embedded as a one-element path. -/
abbrev AttrTable := List (String × List String)

/-- The attribute values stored on a built object (`self.__dict__` restricted
to the mapped attribute names, in table order). -/
abbrev Attrs := List (String × Json)

/-- Reading an attribute value (Python `self.__dict__[k]`); `Json.null` for an
absent name (a built object always carries every mapped name). -/
def Attrs.get : Attrs → String → Json
  | [], _ => Json.null
  | (m, v) :: rest, k => if m = k then v else Attrs.get rest k

/-- Overwrite one attribute value, keeping list order (Python attribute
assignment after `_build`). -/
def Attrs.set : Attrs → String → Json → Attrs
  | [], _, _ => []
  | (m, w) :: rest, k, v => (if m = k then (m, v) else (m, w)) :: Attrs.set rest k v

/-- `ApiObject._build`: walk the attribute table; a `KeyError` at any depth
stores `None` for that attribute, any other exception propagates. -/
def buildAttrs (j : Json) : AttrTable → Except Err Attrs
  | [] => .ok []
  | (name, path) :: rest =>
    match getFromDict j path with
    | .ok v => (buildAttrs j rest).map (fun a => (name, v) :: a)
    | .error e =>
      if e = .keyError then (buildAttrs j rest).map (fun a => (name, Json.null) :: a)
      else .error e

/-- `posixpath.dirname` (what `os.path.dirname` is on the posix build the
library targets): everything before the last `/`, with trailing slashes
stripped unless the head is all slashes. -/
def pyDirname (p : String) : String :=
  let l := p.data
  let i := l.length - (l.reverse.takeWhile (fun c => c ≠ '/')).length
  let head := l.take i
  let head :=
    if !head.isEmpty && !head.all (fun c => c = '/') then
      (head.reverse.dropWhile (fun c => c = '/')).reverse
    else head
  String.mk head

/-- A loaded rendition table: quality label (`"<height>P"`) to relative URI,
as built by `Video._load_available_qualities` from the m3u8 manifest. -/
abbrev QualityTable := List (String × String)

/-- The manifest loader collaborator (`m3u8.load` plus the table-building
loop), indexed by the video's index URL. -/
abbrev ManifestLoader := String → QualityTable

/-- Dict lookup in a rendition table. -/
def qlookup : QualityTable → String → Option String
  | [], _ => none
  | (m, u) :: rest, q => if m = q then some u else qlookup rest q

/-- `models.Video`: index URL, raw type tag, derived base URL, the lazily
loaded rendition table (`None` until loaded) and the sticky selected quality
(`None` until `set_selected_quality`; holds the rendition URI, not the label). -/
structure Video where
  url : String
  type : Json
  base_url : String
  available_qualities_cache : Option QualityTable
  selected_quality : Option String
deriving DecidableEq, Repr

/-- `Video.__init__`. -/
def Video.make (url : String) (type_ : Json) : Video :=
  ⟨url, type_, pyDirname url ++ "/", none, none⟩

/-- Truthiness of `self._available_qualities` (`None` and `{}` are falsy). -/
def Video.aqFalsy (v : Video) : Bool :=
  match v.available_qualities_cache with
  | none => true
  | some t => t.isEmpty

/-- The `if not self._available_qualities: self._load_available_qualities()`
prelude shared by the quality methods; returns the table in use and the
updated object. -/
def Video.ensureQualities (loader : ManifestLoader) (v : Video) :
    QualityTable × Video :=
  if v.aqFalsy then
    let t := loader v.url
    (t, { v with available_qualities_cache := some t })
  else
    (v.available_qualities_cache.getD [], v)

/-- `Video.available_qualities` (returns the quality labels). -/
def Video.available_qualities (loader : ManifestLoader) (v : Video) :
    List String × Video :=
  let (t, v') := v.ensureQualities loader
  (t.map (fun p => p.1), v')

/-- `Video._get_quality`: look the label up in the (lazily loaded) table;
an absent label returns `None` (the `KeyError` is swallowed). -/
def Video.get_quality_impl (loader : ManifestLoader) (v : Video) (q : String) :
    Option String × Video :=
  let (t, v') := v.ensureQualities loader
  match qlookup t q with
  | some uri => (some (v'.base_url ++ uri), v')
  | none => (none, v')

/-- The no-argument (or falsy-argument) branch of `Video.get_quality`:
previously selected quality if set, else the default `"720P"`. -/
def Video.get_quality_noarg (loader : ManifestLoader) (v : Video) :
    Option String × Video :=
  match v.selected_quality with
  | some sel =>
    if !sel.isEmpty then (some (v.base_url ++ sel), v)
    else v.get_quality_impl loader "720P"
  | none => v.get_quality_impl loader "720P"

/-- `Video.get_quality` (`quality=None` default; Python tests the argument
for truthiness). -/
def Video.get_quality (loader : ManifestLoader) (v : Video) (q : Option String) :
    Option String × Video :=
  match q with
  | some s =>
    if !s.isEmpty then v.get_quality_impl loader s
    else v.get_quality_noarg loader
  | none => v.get_quality_noarg loader

/-- `Video.set_selected_quality`: raises `KeyError` when the label is absent
from the (lazily loaded) table, else stores the rendition URI. -/
def Video.set_selected_quality (loader : ManifestLoader) (v : Video) (q : String) :
    Except Err Unit × Video :=
  let (t, v') := v.ensureQualities loader
  match qlookup t q with
  | some uri => (.ok (), { v' with selected_quality := some uri })
  | none => (.error .keyError, v')

/-- `models.Thumbnail.__init__`: copy the `content` items when `type` is
`"picture"`, else stay empty; a non-dict `content` raises `AttributeError`
(`.keys()`), a missing key raises `KeyError`. -/
def buildThumbnail (j : Json) : Except Err (List (String × Json)) := do
  let t ← j.getItem "type"
  if t = Json.str "picture" then
    let content ← j.getItem "content"
    match content with
    | .obj kvs => .ok kvs
    | _ => .error .attributeError
  else
    .ok []

/-- The `try: ... = Thumbnail(json[field]) except KeyError: pass` pattern of
the resource constructors (the thumbnail stays `{}` on `KeyError`). -/
def tryThumbnail (j : Json) (field : String) : Except Err (List (String × Json)) :=
  match (do let tj ← j.getItem field; buildThumbnail tj : Except Err _) with
  | .ok t => .ok t
  | .error e => if e = .keyError then .ok [] else .error e

/-- `models.Audio`: raw url value and container key from the media JSON. -/
structure Audio where
  url : Json
  container : String
deriving DecidableEq, Repr

/-- `models.Link`: raw url/title values and the link's thumbnail. -/
structure Link where
  url : Json
  title : Json
  thumbnail : Option (List (String × Json))
deriving DecidableEq, Repr

/-- `models.MediaGroup`. -/
structure MediaGroup where
  videos : List Video
  audio : List Audio
  links : List Link
deriving DecidableEq, Repr

/-- `MediaGroup.__init__`: decompose the `media` JSON into typed Video/Audio/
Link lists, in source order. -/
def buildMediaGroup (j : Json) : Except Err MediaGroup := do
  let hasV ← j.hasKey "videos"
  let videos ←
    if hasV then do
      let vj ← j.getItem "videos"
      let items ← vj.iter
      items.mapM (fun item => do
        let content ← item.getItem "content"
        let urlJ ← content.getItem "url"
        let content' ← item.getItem "content"
        let typeJ ← content'.getItem "type"
        match urlJ with
        | .str u => pure (Video.make u typeJ)
        | _ => throw Err.typeError)
    else pure []
  let hasA ← j.hasKey "audioFiles"
  let audio ←
    if hasA then do
      let aj ← j.getItem "audioFiles"
      let items ← aj.iter
      let lists ← items.mapM (fun item => do
        let content ← item.getItem "content"
        match content with
        | .obj kvs => pure (kvs.map (fun p => Audio.mk p.2 p.1))
        | _ => throw Err.attributeError)
      pure lists.flatten
    else pure []
  let hasL ← j.hasKey "links"
  let links ←
    if hasL then do
      let lj ← j.getItem "links"
      let items ← lj.iter
      items.mapM (fun item => do
        let content ← item.getItem "content"
        let titleJ ← content.getItem "title"
        let content' ← item.getItem "content"
        let urlJ ← content'.getItem "link"
        let content'' ← item.getItem "content"
        let picJ ← content''.getItem "picture"
        let thumb ← buildThumbnail picJ
        pure (Link.mk urlJ titleJ (some thumb)))
    else pure []
  pure ⟨videos, audio, links⟩

/-! ## The resource object model

`Episode`, `Season`, `Show` and `User` from `models.py`.  `models.Show` is
named `TvShow` here because `Show` is a Lean core type class.  The lazy
relation caches (`_season`, `_show`, `_seasons`, `_episodes`, `_queue`) make
the four types mutually recursive, so they are mutual inductives with one
constructor each; the `_api` back-reference is modelled by passing the port
explicitly to the lazy accessors. -/

mutual
/-- `models.Episode`: mapped attributes (with `is_watched` normalised),
thumbnail, media group, and the `_season` / `_show` caches. -/
inductive Episode where
  | mk : Attrs → List (String × Json) → Option MediaGroup →
      Option Season → Option TvShow → Episode

/-- `models.Season`: mapped attributes and the `_show` / `_episodes` caches
(`Season.__init__` never initialises a thumbnail). -/
inductive Season where
  | mk : Attrs → Option TvShow → Option (List Episode) → Season

/-- `models.Show`: mapped attributes, thumbnail, cover picture, and the
`_seasons` / `_episodes` caches. -/
inductive TvShow where
  | mk : Attrs → List (String × Json) → List (String × Json) →
      Option (List Season) → Option (List Episode) → TvShow

/-- `models.User`: mapped attributes, thumbnail, the `_queue` cache and the
`queue_dirty` flag. -/
inductive User where
  | mk : Attrs → List (String × Json) → Option (List Episode) → Bool → User
end

/-- Mapped attribute values of an episode. -/
def Episode.attrs : Episode → Attrs
  | .mk a _ _ _ _ => a

/-- `Episode._thumbnail`. -/
def Episode.thumbnailDict : Episode → List (String × Json)
  | .mk _ t _ _ _ => t

/-- `Episode.mediagroup`. -/
def Episode.mediagroup : Episode → Option MediaGroup
  | .mk _ _ m _ _ => m

/-- `Episode._season` (lazy relation cache). -/
def Episode.seasonCache : Episode → Option Season
  | .mk _ _ _ s _ => s

/-- `Episode._show` (initialised to `None`, never written by the source). -/
def Episode.showCache : Episode → Option TvShow
  | .mk _ _ _ _ s => s

/-- Replace the `_season` cache. -/
def Episode.withSeasonCache : Episode → Option Season → Episode
  | .mk a t m _ sh, s => .mk a t m s sh

/-- Mapped attribute values of a season. -/
def Season.attrs : Season → Attrs
  | .mk a _ _ => a

/-- `Season._show` (lazy relation cache). -/
def Season.showCache : Season → Option TvShow
  | .mk _ s _ => s

/-- `Season._episodes` (lazy relation cache). -/
def Season.episodesCache : Season → Option (List Episode)
  | .mk _ _ e => e

/-- Replace the `_show` cache. -/
def Season.withShowCache : Season → Option TvShow → Season
  | .mk a _ e, s => .mk a s e

/-- Replace the `_episodes` cache. -/
def Season.withEpisodesCache : Season → Option (List Episode) → Season
  | .mk a s _, e => .mk a s e

/-- Mapped attribute values of a show. -/
def TvShow.attrs : TvShow → Attrs
  | .mk a _ _ _ _ => a

/-- `Show._thumbnail`. -/
def TvShow.thumbnailDict : TvShow → List (String × Json)
  | .mk _ t _ _ _ => t

/-- `Show._cover_picture`. -/
def TvShow.coverDict : TvShow → List (String × Json)
  | .mk _ _ c _ _ => c

/-- `Show._seasons` (lazy relation cache). -/
def TvShow.seasonsCache : TvShow → Option (List Season)
  | .mk _ _ _ s _ => s

/-- `Show._episodes` (lazy relation cache). -/
def TvShow.episodesCache : TvShow → Option (List Episode)
  | .mk _ _ _ _ e => e

/-- Replace the `_seasons` cache. -/
def TvShow.withSeasonsCache : TvShow → Option (List Season) → TvShow
  | .mk a t c _ e, s => .mk a t c s e

/-- Mapped attribute values of a user. -/
def User.attrs : User → Attrs
  | .mk a _ _ _ => a

/-- `User._thumbnail`. -/
def User.thumbnailDict : User → List (String × Json)
  | .mk _ t _ _ => t

/-- `User._queue` (lazy relation cache). -/
def User.queueCache : User → Option (List Episode)
  | .mk _ _ q _ => q

/-- `User.queue_dirty`. -/
def User.queue_dirty : User → Bool
  | .mk _ _ _ d => d

/-- Replace the `_queue` cache and the dirty flag. -/
def User.withQueue : User → Option (List Episode) → Bool → User
  | .mk a t _ _, q, d => .mk a t q d

/-- `Episode.attrs` table of `Episode.__init__`, in source order. -/
def episodeAttrTable : AttrTable :=
  [("id_", ["id"]),
   ("is_sponsor_only", ["sponsorOnly"]),
   ("length", ["length"]),
   ("title", ["title"]),
   ("show_name", ["show", "name"]),
   ("number", ["number"]),
   ("caption", ["caption"]),
   ("description", ["description", "clean"]),
   ("is_watched", ["watched"]),
   ("canonical_url", ["canonicalUrl"]),
   ("site", ["site"]),
   ("show_id", ["show", "id"]),
   ("season_id", ["season", "id"])]

/-- `Season.attrs` table of `Season.__init__`, in source order. -/
def seasonAttrTable : AttrTable :=
  [("id_", ["id"]),
   ("show_name", ["show", "name"]),
   ("show_id", ["show", "id"]),
   ("number", ["number"]),
   ("title", ["title"]),
   ("description", ["description"])]

/-- `Show.attrs` table of `Show.__init__`, in source order. -/
def showAttrTable : AttrTable :=
  [("id_", ["id"]),
   ("name", ["name"]),
   ("canonical_url", ["canonicalUrl"]),
   ("season_count", ["seasonCount"]),
   ("summary", ["summary", "clean"])]

/-- `User.attrs` table of `User.__init__`, in source order. -/
def userAttrTable : AttrTable :=
  [("id_", ["id"]),
   ("username", ["username"]),
   ("name", ["name"]),
   ("is_sponsor", ["sponsor"]),
   ("location", ["location"]),
   ("occupation", ["occupation"]),
   ("about", ["about", "clean"]),
   ("sex", ["sex"]),
   ("display_title", ["displayTitle"]),
   ("has_used_trial", ["hasUsedTrial"]),
   ("canonical_url", ["canonicalUrl"])]

/-- The `try: self.mediagroup = MediaGroup(episode_json['media'])
except KeyError: self.mediagroup = None` step of `Episode.__init__`. -/
def tryMediaGroup (j : Json) : Except Err (Option MediaGroup) :=
  match (do let mj ← j.getItem "media"; buildMediaGroup mj : Except Err MediaGroup) with
  | .ok m => .ok (some m)
  | .error e => if e = .keyError then .ok none else .error e

/-- `Episode.__init__`: generic attribute pass, watched-flag normalisation,
media group, thumbnail, empty caches. -/
def Episode.build (j : Json) : Except Err Episode :=
  match buildAttrs j episodeAttrTable with
  | .error e => .error e
  | .ok a =>
    let a := a.set "is_watched" (Json.bool (Json.beq (a.get "is_watched") (Json.str "watched")))
    match tryMediaGroup j with
    | .error e => .error e
    | .ok mg =>
      match tryThumbnail j "profilePicture" with
      | .error e => .error e
      | .ok th => .ok (Episode.mk a th mg none none)

/-- `Season.__init__`: generic attribute pass and empty caches. -/
def Season.build (j : Json) : Except Err Season :=
  match buildAttrs j seasonAttrTable with
  | .error e => .error e
  | .ok a => .ok (Season.mk a none none)

/-- `Show.__init__`: generic attribute pass, thumbnail, cover picture,
empty caches. -/
def TvShow.build (j : Json) : Except Err TvShow :=
  match buildAttrs j showAttrTable with
  | .error e => .error e
  | .ok a =>
    match tryThumbnail j "profilePicture" with
    | .error e => .error e
    | .ok th =>
      match tryThumbnail j "coverPicture" with
      | .error e => .error e
      | .ok cp => .ok (TvShow.mk a th cp none none)

/-- `User.__init__`: generic attribute pass, thumbnail, empty queue cache,
clean dirty flag. -/
def User.build (j : Json) : Except Err User :=
  match buildAttrs j userAttrTable with
  | .error e => .error e
  | .ok a =>
    match tryThumbnail j "profilePicture" with
    | .error e => .error e
    | .ok th => .ok (User.mk a th none false)

/-- `Json.beq` decides propositional equality. -/
theorem Json.beq_iff {a b : Json} : Json.beq a b = true ↔ a = b :=
  ⟨Json.eq_of_beq, fun h => h ▸ Json.beq_refl a⟩

/-- The dict comparison of `ApiObject.__eq__`: both dicts range over the same
attribute names (the type's table), so they are equal iff the values agree
name-for-name. -/
def attrsDictEq (names : List String) (a b : Attrs) : Bool :=
  names.all (fun n => Json.beq (a.get n) (b.get n))

/-- The four concrete resource types (`type(self)` in `ApiObject.__eq__`). -/
inductive RKind where
  | episode : RKind
  | season : RKind
  | tvShow : RKind
  | user : RKind
deriving DecidableEq, Repr

/-- A resource instance of any of the four concrete types. -/
inductive Resource where
  | episode : Episode → Resource
  | season : Season → Resource
  | tvShow : TvShow → Resource
  | user : User → Resource

/-- The concrete type of a resource instance. -/
def Resource.kind : Resource → RKind
  | .episode _ => .episode
  | .season _ => .season
  | .tvShow _ => .tvShow
  | .user _ => .user

/-- The field-mapping table of a resource's concrete type. -/
def RKind.attrTable : RKind → AttrTable
  | .episode => episodeAttrTable
  | .season => seasonAttrTable
  | .tvShow => showAttrTable
  | .user => userAttrTable

/-- The attribute names of a resource's concrete type, in table order. -/
def RKind.attrNames (k : RKind) : List String :=
  k.attrTable.map (fun p => p.1)

/-- The stored mapped-attribute values of a resource instance. -/
def Resource.attrs : Resource → Attrs
  | .episode e => e.attrs
  | .season s => s.attrs
  | .tvShow s => s.attrs
  | .user u => u.attrs

/-- One stored attribute value of a resource instance. -/
def Resource.attr (r : Resource) (n : String) : Json :=
  r.attrs.get n

/-- `ApiObject.__eq__`: same concrete type and equal mapped-attribute dicts;
different concrete types are unequal regardless of contents. -/
def Resource.eq : Resource → Resource → Bool
  | .episode a, .episode b => attrsDictEq (RKind.attrNames .episode) a.attrs b.attrs
  | .season a, .season b => attrsDictEq (RKind.attrNames .season) a.attrs b.attrs
  | .tvShow a, .tvShow b => attrsDictEq (RKind.attrNames .tvShow) a.attrs b.attrs
  | .user a, .user b => attrsDictEq (RKind.attrNames .user) a.attrs b.attrs
  | _, _ => false

/-- The mapped-attribute observation of `Episode` construction: `none` when
construction raises, else the stored value of attribute `n`. -/
def Episode.attrOf (j : Json) (n : String) : Option Json :=
  match Episode.build j with
  | .ok e => some (e.attrs.get n)
  | .error _ => none

/-- The mapped-attribute observation of `Season` construction. -/
def Season.attrOf (j : Json) (n : String) : Option Json :=
  match Season.build j with
  | .ok s => some (s.attrs.get n)
  | .error _ => none

/-- The mapped-attribute observation of `Show` construction. -/
def TvShow.attrOf (j : Json) (n : String) : Option Json :=
  match TvShow.build j with
  | .ok s => some (s.attrs.get n)
  | .error _ => none

/-- The mapped-attribute observation of `User` construction. -/
def User.attrOf (j : Json) (n : String) : Option Json :=
  match User.build j with
  | .ok u => some (u.attrs.get n)
  | .error _ => none

/-- The value `_build` stores for one attribute: the looked-up value, or
`None` when the path is missing. -/
def attrValue (j : Json) (p : List String) : Json :=
  match getFromDict j p with
  | .ok v => v
  | .error _ => Json.null

/-- `_build` never raises `KeyError`: every missing key is swallowed. -/
theorem buildAttrs_ne_keyError (j : Json) :
    ∀ t : AttrTable, buildAttrs j t ≠ Except.error Err.keyError := by
  intro t
  induction t with
  | nil => simp [buildAttrs]
  | cons hd rest ih =>
    obtain ⟨n, p⟩ := hd
    simp only [buildAttrs]
    split
    · cases hr : buildAttrs j rest with
      | ok a => simp [Except.map]
      | error e =>
        simp only [Except.map]
        intro hh
        exact ih (by rw [hr, hh])
    · rename_i e _
      split
      · cases hr : buildAttrs j rest with
        | ok a => simp [Except.map]
        | error e' =>
          simp only [Except.map]
          intro hh
          exact ih (by rw [hr, hh])
      · rename_i he
        intro hh
        exact he (by injection hh)

/-- When `_build` succeeds it stores, per table entry in order, the looked-up
value or `None`. -/
theorem buildAttrs_ok_eq (j : Json) :
    ∀ (t : AttrTable) (a : Attrs), buildAttrs j t = .ok a →
      a = t.map (fun q => (q.1, attrValue j q.2)) := by
  intro t
  induction t with
  | nil =>
    intro a h
    simp [buildAttrs] at h
    simp [← h]
  | cons hd rest ih =>
    obtain ⟨n, p⟩ := hd
    intro a h
    simp only [buildAttrs] at h
    split at h
    · rename_i v hg
      cases hr : buildAttrs j rest with
      | ok a' =>
        rw [hr] at h
        simp only [Except.map] at h
        injection h with h
        simp [← h, ih a' hr, attrValue, hg]
      | error e => rw [hr] at h; simp [Except.map] at h
    · rename_i e hg
      split at h
      · rename_i he
        subst he
        cases hr : buildAttrs j rest with
        | ok a' =>
          rw [hr] at h
          simp only [Except.map] at h
          injection h with h
          simp [← h, ih a' hr, attrValue, hg]
        | error e' => rw [hr] at h; simp [Except.map] at h
      · simp at h

/-- Reading a mapped attribute out of the stored table: with distinct names,
the entry of `(n, p)` holds `attrValue j p`. -/
theorem attrs_get_mapped (j : Json) :
    ∀ (t : AttrTable), (t.map (fun q => q.1)).Nodup →
      ∀ n p, (n, p) ∈ t →
        Attrs.get (t.map (fun q => (q.1, attrValue j q.2))) n = attrValue j p := by
  intro t
  induction t with
  | nil => intro _ n p h; cases h
  | cons hd rest ih =>
    obtain ⟨m, q⟩ := hd
    intro hnd n p hmem
    simp only [List.map_cons, List.nodup_cons] at hnd
    simp only [List.map_cons, Attrs.get]
    by_cases hmn : m = n
    · subst hmn
      have hpq : p = q := by
        cases hmem with
        | head => rfl
        | tail _ hmem' =>
          exact absurd (List.mem_map.mpr ⟨(m, p), hmem', rfl⟩) hnd.1
      subst hpq
      simp
    · rw [if_neg hmn]
      have hmem' : (n, p) ∈ rest := by
        cases hmem with
        | head => exact absurd rfl hmn
        | tail _ h => exact h
      exact ih hnd.2 n p hmem'

/-- Attribute assignment after `_build` does not touch other names. -/
theorem attrs_get_set_ne (k : String) (v : Json) (n : String) (h : n ≠ k) :
    ∀ a : Attrs, Attrs.get (Attrs.set a k v) n = Attrs.get a n := by
  intro a
  induction a with
  | nil => simp [Attrs.set, Attrs.get]
  | cons hd tl ih =>
    obtain ⟨m, w⟩ := hd
    simp only [Attrs.set]
    by_cases hmk : m = k
    · rw [if_pos hmk]
      have hmn : ¬ m = n := fun hh => h (by rw [← hh, hmk])
      simp only [Attrs.get, if_neg hmn]
      exact ih
    · rw [if_neg hmk]
      simp only [Attrs.get]
      by_cases hmn : m = n
      · simp [hmn]
      · simp only [if_neg hmn]
        exact ih

/-- The thumbnail try/except never raises `KeyError`. -/
theorem tryThumbnail_ne_keyError (j : Json) (f : String) :
    tryThumbnail j f ≠ Except.error Err.keyError := by
  unfold tryThumbnail
  split
  · simp
  · split
    · simp
    · rename_i he
      intro hh
      exact he (by injection hh)

/-- The media-group try/except never raises `KeyError`. -/
theorem tryMediaGroup_ne_keyError (j : Json) :
    tryMediaGroup j ≠ Except.error Err.keyError := by
  unfold tryMediaGroup
  split
  · simp
  · split
    · simp
    · rename_i he
      intro hh
      exact he (by injection hh)

/-- `Episode.__init__` never raises `KeyError`. -/
theorem episodeBuild_ne_keyError (j : Json) :
    Episode.build j ≠ Except.error Err.keyError := by
  unfold Episode.build
  split
  · rename_i e ha
    intro hh
    injection hh with hh
    exact buildAttrs_ne_keyError j episodeAttrTable (by rw [ha, hh])
  · split
    · rename_i e hm
      intro hh
      injection hh with hh
      exact tryMediaGroup_ne_keyError j (by rw [hm, hh])
    · split
      · rename_i e ht
        intro hh
        injection hh with hh
        exact tryThumbnail_ne_keyError j "profilePicture" (by rw [ht, hh])
      · simp

/-- `Season.__init__` never raises `KeyError`. -/
theorem seasonBuild_ne_keyError (j : Json) :
    Season.build j ≠ Except.error Err.keyError := by
  unfold Season.build
  split
  · rename_i e ha
    intro hh
    injection hh with hh
    exact buildAttrs_ne_keyError j seasonAttrTable (by rw [ha, hh])
  · simp

/-- `Show.__init__` never raises `KeyError`. -/
theorem showBuild_ne_keyError (j : Json) :
    TvShow.build j ≠ Except.error Err.keyError := by
  unfold TvShow.build
  split
  · rename_i e ha
    intro hh
    injection hh with hh
    exact buildAttrs_ne_keyError j showAttrTable (by rw [ha, hh])
  · split
    · rename_i e ht
      intro hh
      injection hh with hh
      exact tryThumbnail_ne_keyError j "profilePicture" (by rw [ht, hh])
    · split
      · rename_i e ht
        intro hh
        injection hh with hh
        exact tryThumbnail_ne_keyError j "coverPicture" (by rw [ht, hh])
      · simp

/-- `User.__init__` never raises `KeyError`. -/
theorem userBuild_ne_keyError (j : Json) :
    User.build j ≠ Except.error Err.keyError := by
  unfold User.build
  split
  · rename_i e ha
    intro hh
    injection hh with hh
    exact buildAttrs_ne_keyError j userAttrTable (by rw [ha, hh])
  · split
    · rename_i e ht
      intro hh
      injection hh with hh
      exact tryThumbnail_ne_keyError j "profilePicture" (by rw [ht, hh])
    · simp

/-- A successfully built episode stores the generic pass's values with only
`is_watched` rewritten. -/
theorem episodeBuild_ok_attrs (j : Json) (e : Episode)
    (h : Episode.build j = .ok e) :
    e.attrs =
      Attrs.set (episodeAttrTable.map (fun q => (q.1, attrValue j q.2))) "is_watched"
        (Json.bool (Json.beq
          (Attrs.get (episodeAttrTable.map (fun q => (q.1, attrValue j q.2))) "is_watched")
          (Json.str "watched"))) := by
  unfold Episode.build at h
  split at h
  · cases h
  · rename_i a ha
    split at h
    · cases h
    · split at h
      · cases h
      · injection h with h
        rw [← buildAttrs_ok_eq j episodeAttrTable a ha, ← h]
        rfl

/-- A successfully built season stores exactly the generic pass's values. -/
theorem seasonBuild_ok_attrs (j : Json) (s : Season)
    (h : Season.build j = .ok s) :
    s.attrs = seasonAttrTable.map (fun q => (q.1, attrValue j q.2)) := by
  unfold Season.build at h
  split at h
  · cases h
  · rename_i a ha
    injection h with h
    rw [← buildAttrs_ok_eq j seasonAttrTable a ha, ← h]
    rfl

/-- A successfully built show stores exactly the generic pass's values. -/
theorem showBuild_ok_attrs (j : Json) (s : TvShow)
    (h : TvShow.build j = .ok s) :
    s.attrs = showAttrTable.map (fun q => (q.1, attrValue j q.2)) := by
  unfold TvShow.build at h
  split at h
  · cases h
  · rename_i a ha
    split at h
    · cases h
    · split at h
      · cases h
      · injection h with h
        rw [← buildAttrs_ok_eq j showAttrTable a ha, ← h]
        rfl

/-- A successfully built user stores exactly the generic pass's values. -/
theorem userBuild_ok_attrs (j : Json) (u : User)
    (h : User.build j = .ok u) :
    u.attrs = userAttrTable.map (fun q => (q.1, attrValue j q.2)) := by
  unfold User.build at h
  split at h
  · cases h
  · rename_i a ha
    split at h
    · cases h
    · injection h with h
      rw [← buildAttrs_ok_eq j userAttrTable a ha, ← h]
      rfl

/-- **C1 counterexample.**  The claim "for every JSON document, construction
succeeds, and every attribute whose mapped key path is missing is null" is
false on the code: `Season({"show": 5})` raises `TypeError` (the path
`("show", "name")` subscripts the non-dict `5`), and `Episode({})` stores
`False`, not `None`, for the missing-path attribute `is_watched`. -/
theorem C1_counterexample :
    Season.build (Json.obj [("show", Json.num 5)]) = Except.error Err.typeError ∧
    Episode.attrOf (Json.obj []) "is_watched" = some (Json.bool false) :=
  ⟨rfl, rfl⟩

/-- **C1** (amended): construction never fails because of a missing key (a
`KeyError` at any depth is always swallowed; construction can only fail on a
non-dict value met while traversing, a type/attribute error), and whenever
construction succeeds, every attribute whose mapped key path is missing is
null — except `Episode.is_watched`, which the constructor normalises to a
boolean after the generic pass (missing ⇒ `False`). -/
theorem C1_field_mapping_null_safe (j : Json) :
    (Episode.build j ≠ Except.error Err.keyError ∧
     Season.build j ≠ Except.error Err.keyError ∧
     TvShow.build j ≠ Except.error Err.keyError ∧
     User.build j ≠ Except.error Err.keyError) ∧
    (∀ n p, (n, p) ∈ episodeAttrTable → n ≠ "is_watched" →
      getFromDict j p = Except.error Err.keyError →
      Episode.attrOf j n = none ∨ Episode.attrOf j n = some Json.null) ∧
    (∀ n p, (n, p) ∈ seasonAttrTable →
      getFromDict j p = Except.error Err.keyError →
      Season.attrOf j n = none ∨ Season.attrOf j n = some Json.null) ∧
    (∀ n p, (n, p) ∈ showAttrTable →
      getFromDict j p = Except.error Err.keyError →
      TvShow.attrOf j n = none ∨ TvShow.attrOf j n = some Json.null) ∧
    (∀ n p, (n, p) ∈ userAttrTable →
      getFromDict j p = Except.error Err.keyError →
      User.attrOf j n = none ∨ User.attrOf j n = some Json.null) := by
  refine ⟨⟨episodeBuild_ne_keyError j, seasonBuild_ne_keyError j,
    showBuild_ne_keyError j, userBuild_ne_keyError j⟩, ?_, ?_, ?_, ?_⟩
  · intro n p hmem hne hmiss
    unfold Episode.attrOf
    cases hb : Episode.build j with
    | error e => exact Or.inl rfl
    | ok e =>
      refine Or.inr ?_
      show some (Attrs.get e.attrs n) = some Json.null
      rw [episodeBuild_ok_attrs j e hb, attrs_get_set_ne _ _ _ hne,
        attrs_get_mapped j episodeAttrTable (by decide) n p hmem]
      simp [attrValue, hmiss]
  · intro n p hmem hmiss
    unfold Season.attrOf
    cases hb : Season.build j with
    | error e => exact Or.inl rfl
    | ok s =>
      refine Or.inr ?_
      show some (Attrs.get s.attrs n) = some Json.null
      rw [seasonBuild_ok_attrs j s hb,
        attrs_get_mapped j seasonAttrTable (by decide) n p hmem]
      simp [attrValue, hmiss]
  · intro n p hmem hmiss
    unfold TvShow.attrOf
    cases hb : TvShow.build j with
    | error e => exact Or.inl rfl
    | ok s =>
      refine Or.inr ?_
      show some (Attrs.get s.attrs n) = some Json.null
      rw [showBuild_ok_attrs j s hb,
        attrs_get_mapped j showAttrTable (by decide) n p hmem]
      simp [attrValue, hmiss]
  · intro n p hmem hmiss
    unfold User.attrOf
    cases hb : User.build j with
    | error e => exact Or.inl rfl
    | ok u =>
      refine Or.inr ?_
      show some (Attrs.get u.attrs n) = some Json.null
      rw [userBuild_ok_attrs j u hb,
        attrs_get_mapped j userAttrTable (by decide) n p hmem]
      simp [attrValue, hmiss]

/-- **C1 witness**: the amended theorem applied to the concrete document
`{}` and the attribute `title` of `Episode`. -/
theorem C1_field_mapping_null_safe_witness :
    getFromDict (Json.obj []) ["title"] = Except.error Err.keyError ∧
    (Episode.attrOf (Json.obj []) "title" = none ∨
     Episode.attrOf (Json.obj []) "title" = some Json.null) :=
  ⟨rfl,
   (C1_field_mapping_null_safe (Json.obj [])).2.1 "title" ["title"]
     (by decide) (by decide) rfl⟩

/-- **C2.**  `ApiObject.__eq__`: two resource instances compare equal iff they
have the same concrete type and every attribute named in that type's
field-mapping table is equal in both; instances of different concrete types
are never equal (regardless of attribute contents, identifiers included), and
equality is fully determined by the stored values — it never falls back to
reference identity. -/
theorem C2_resource_equality (x y : Resource) :
    (Resource.eq x y = true ↔
      x.kind = y.kind ∧ ∀ n ∈ x.kind.attrNames, x.attr n = y.attr n) ∧
    (x.kind ≠ y.kind → Resource.eq x y = false) := by
  constructor
  · cases x <;> cases y <;>
      simp [Resource.eq, Resource.kind, Resource.attr, Resource.attrs, attrsDictEq,
        List.all_eq_true, Json.beq_iff]
  · intro hne
    cases x <;> cases y <;> simp_all [Resource.kind, Resource.eq]

/-- **C2 witness**: two episodes with the same mapped attributes but
different thumbnails and caches are equal; an episode and a user with the
same identifier are not. -/
theorem C2_resource_equality_witness :
    Resource.eq
      (Resource.episode (Episode.mk [("id_", Json.num 7)] [] none none none))
      (Resource.episode (Episode.mk [("id_", Json.num 7)]
        [("tb", Json.str "u")] none none none)) = true ∧
    Resource.eq
      (Resource.episode (Episode.mk [("id_", Json.num 7)] [] none none none))
      (Resource.user (User.mk [("id_", Json.num 7)] [] none false)) = false :=
  ⟨(C2_resource_equality _ _).1.mpr ⟨rfl, by decide⟩,
   (C2_resource_equality _ _).2 (by decide)⟩

/-- **C7.**  On a `Video` whose rendition table is loaded (a truthy
`_available_qualities`, i.e. a non-empty cached table — an empty cache is
indistinguishable from "not loaded" to every guard in the class),
`set_selected_quality` with a label absent from the table raises `KeyError`
and leaves the object — in particular the previously selected quality —
unchanged, while `get_quality` with that label as argument returns `None`
without raising.  (A quality argument is a non-empty string: Python's
`if quality:` treats a falsy `""` argument as the no-argument call.) -/
theorem C7_absent_quality (loader : ManifestLoader) (v : Video)
    (t : QualityTable) (q : String)
    (hload : v.available_qualities_cache = some t) (hne : t ≠ [])
    (habs : qlookup t q = none) :
    (v.set_selected_quality loader q).1 = Except.error Err.keyError ∧
    (v.set_selected_quality loader q).2.selected_quality = v.selected_quality ∧
    (q ≠ "" → (v.get_quality loader (some q)).1 = none) := by
  have hfalsy : v.aqFalsy = false := by
    rw [Video.aqFalsy, hload]
    simpa [List.isEmpty_iff] using hne
  have hens : v.ensureQualities loader = (t, v) := by
    rw [Video.ensureQualities, hfalsy]
    simp [hload]
  refine ⟨?_, ?_, ?_⟩
  · rw [Video.set_selected_quality, hens]
    simp [habs]
  · rw [Video.set_selected_quality, hens]
    simp [habs]
  · intro hq
    have hqe : q.isEmpty = false := by
      by_contra hc
      rw [Bool.not_eq_false] at hc
      exact hq ((String.isEmpty_iff q).mp hc)
    rw [Video.get_quality]
    rw [if_pos (by simp [hqe])]
    rw [Video.get_quality_impl, hens]
    simp [habs]

/-- **C7 witness**: the theorem at a concrete video with table
`{"720P": "x"}`, previously selected quality `"s"`, and absent label
`"1080P"`. -/
theorem C7_absent_quality_witness :
    (Video.set_selected_quality (fun _ => [])
      ⟨"u", Json.str "cdn", "b/", some [("720P", "x")], some "s"⟩ "1080P").1 =
        Except.error Err.keyError ∧
    (Video.set_selected_quality (fun _ => [])
      ⟨"u", Json.str "cdn", "b/", some [("720P", "x")], some "s"⟩ "1080P").2.selected_quality =
        some "s" ∧
    (Video.get_quality (fun _ => [])
      ⟨"u", Json.str "cdn", "b/", some [("720P", "x")], some "s"⟩ (some "1080P")).1 = none := by
  obtain ⟨h1, h2, h3⟩ := C7_absent_quality (fun _ => [])
    ⟨"u", Json.str "cdn", "b/", some [("720P", "x")], some "s"⟩
    [("720P", "x")] "1080P" rfl (by decide) (by decide)
  exact ⟨h1, h2, h3 (by decide)⟩

/-- `ensureQualities` never changes the base URL. -/
theorem Video.ensure_base_url (loader : ManifestLoader) (v : Video) :
    (v.ensureQualities loader).2.base_url = v.base_url := by
  rw [Video.ensureQualities]
  split <;> rfl

/-- `ensureQualities` never changes the selected quality. -/
theorem Video.ensure_selected (loader : ManifestLoader) (v : Video) :
    (v.ensureQualities loader).2.selected_quality = v.selected_quality := by
  rw [Video.ensureQualities]
  split <;> rfl

/-- **C8 counterexample.**  The claim "after a successful selection,
`get_quality()` with no argument returns the selected quality's URL" fails
when the selected rendition's URI is the empty string: `selected_quality`
becomes `""`, which Python's `if self.selected_quality:` treats as unset, so
the default `"720P"` URL (`"a/x"`) is returned instead of the selected
480P URL (`"a/" ++ ""`). -/
theorem C8_counterexample :
    (Video.set_selected_quality (fun _ => [("480P", ""), ("720P", "x")])
      (Video.make "a/i.m3u8" (Json.str "cdn")) "480P").1 = Except.ok () ∧
    ((Video.set_selected_quality (fun _ => [("480P", ""), ("720P", "x")])
      (Video.make "a/i.m3u8" (Json.str "cdn")) "480P").2.get_quality
        (fun _ => [("480P", ""), ("720P", "x")]) none).1 = some "a/x" ∧
    ("a/x" : String) ≠ "a/" ++ "" :=
  ⟨rfl, rfl, by decide⟩

/-- **C8** (amended).  With no previously selected quality, `get_quality()`
with no argument resolves exactly the default label `"720P"`: it returns
`base_url ++ uri` when the (lazily loaded) table maps `"720P"` to `uri`, and
`None` when `"720P"` is absent, with no fallback to any other quality.  After
a successful selection whose stored rendition URI is non-empty, `get_quality()`
with no argument returns the selected quality's URL (with no further manifest
load — any second loader gives the same answer). -/
theorem C8_default_quality (loader loader2 : ManifestLoader) (v : Video) :
    (v.selected_quality = none →
      (∀ uri, qlookup (v.ensureQualities loader).1 "720P" = some uri →
        (v.get_quality loader none).1 = some (v.base_url ++ uri)) ∧
      (qlookup (v.ensureQualities loader).1 "720P" = none →
        (v.get_quality loader none).1 = none)) ∧
    (∀ q uri, qlookup (v.ensureQualities loader).1 q = some uri → uri ≠ "" →
      (v.set_selected_quality loader q).1 = Except.ok () ∧
      ((v.set_selected_quality loader q).2.get_quality loader2 none).1 =
        some (v.base_url ++ uri)) := by
  rcases hE : v.ensureQualities loader with ⟨t, v'⟩
  have hbase : v'.base_url = v.base_url := by
    have := Video.ensure_base_url loader v
    rwa [hE] at this
  constructor
  · intro hnone
    constructor
    · intro uri hq
      replace hq : qlookup t "720P" = some uri := hq
      show (v.get_quality_noarg loader).1 = _
      rw [Video.get_quality_noarg, hnone]
      rw [Video.get_quality_impl, hE]
      simp only [hq]
      rw [hbase]
    · intro hq
      replace hq : qlookup t "720P" = none := hq
      show (v.get_quality_noarg loader).1 = _
      rw [Video.get_quality_noarg, hnone]
      rw [Video.get_quality_impl, hE]
      simp [hq]
  · intro q uri hq hne
    replace hq : qlookup t q = some uri := hq
    have huri : uri.isEmpty = false := by
      by_contra hc
      rw [Bool.not_eq_false] at hc
      exact hne ((String.isEmpty_iff uri).mp hc)
    rw [Video.set_selected_quality, hE]
    simp only [hq]
    refine ⟨trivial, ?_⟩
    show (Video.get_quality_noarg loader2 _).1 = _
    rw [Video.get_quality_noarg]
    simp only []
    rw [if_pos (by simp [huri])]
    simp [hbase]

/-- **C8 witness**: the amended theorem at a video with manifest
`{"480P": "u4", "720P": "u7"}` (default resolution, post-selection
resolution) and at an empty manifest (absent default gives `None`). -/
theorem C8_default_quality_witness :
    (Video.get_quality (fun _ => [("480P", "u4"), ("720P", "u7")])
      (Video.make "b/i.m3u8" (Json.str "cdn")) none).1 = some ("b/" ++ "u7") ∧
    (Video.get_quality (fun _ => [])
      (Video.make "b/i.m3u8" (Json.str "cdn")) none).1 = none ∧
    (Video.set_selected_quality (fun _ => [("480P", "u4"), ("720P", "u7")])
      (Video.make "b/i.m3u8" (Json.str "cdn")) "480P").1 = Except.ok () ∧
    ((Video.set_selected_quality (fun _ => [("480P", "u4"), ("720P", "u7")])
      (Video.make "b/i.m3u8" (Json.str "cdn")) "480P").2.get_quality
        (fun _ => [("480P", "u4"), ("720P", "u7")]) none).1 = some ("b/" ++ "u4") := by
  refine ⟨?_, ?_, ?_, ?_⟩
  · exact ((C8_default_quality (fun _ => [("480P", "u4"), ("720P", "u7")])
      (fun _ => [("480P", "u4"), ("720P", "u7")])
      (Video.make "b/i.m3u8" (Json.str "cdn"))).1 rfl).1 "u7" rfl
  · exact ((C8_default_quality (fun _ => []) (fun _ => [])
      (Video.make "b/i.m3u8" (Json.str "cdn"))).1 rfl).2 rfl
  · exact ((C8_default_quality (fun _ => [("480P", "u4"), ("720P", "u7")])
      (fun _ => [("480P", "u4"), ("720P", "u7")])
      (Video.make "b/i.m3u8" (Json.str "cdn"))).2 "480P" "u4" rfl (by decide)).1
  · exact ((C8_default_quality (fun _ => [("480P", "u4"), ("720P", "u7")])
      (fun _ => [("480P", "u4"), ("720P", "u7")])
      (Video.make "b/i.m3u8" (Json.str "cdn"))).2 "480P" "u4" rfl (by decide)).2

/-! ## The Api façade: request lifecycle (`api.py`)

Network traffic is modelled by handing each operation the `requests` response
(or a response oracle) for the call(s) it makes. -/

/-- A `requests` response: status code, the parsed JSON body (`none` when
`response.json()` raises `ValueError`), the raw text, and the headers. -/
structure HttpResponse where
  status : Nat
  jsonBody : Option Json
  text : String
  headers : List (String × String)

/-- `response.raise_for_status()`: raises `HTTPError` exactly for 4xx/5xx. -/
def raiseForStatus (status : Nat) : Except Err Unit :=
  if 400 ≤ status ∧ status < 600 then .error (.httpError status) else .ok ()

/-- The `try: return response.json() except ValueError: pass` tail of
`Api.__get_data` (an unparseable body yields `None`). -/
def parseBody (resp : HttpResponse) : Except Err (Option Json) :=
  match resp.jsonBody with
  | some j => .ok (some j)
  | none => .ok none

/-- `Api.__get_data`: 401 raises, 404 yields `None`, any other non-200 status
goes through `raise_for_status`, then the body is parsed. -/
def getData (resp : HttpResponse) : Except Err (Option Json) :=
  if resp.status = 401 then
    match raiseForStatus resp.status with
    | .error e => .error e
    | .ok () => parseBody resp
  else if resp.status = 404 then .ok none
  else if resp.status ≠ 200 then
    match raiseForStatus resp.status with
    | .error e => .error e
    | .ok () => parseBody resp
  else parseBody resp

/-- `Api.__build_response`: falsy data yields `None`, otherwise the model is
constructed from the data (construction errors propagate). -/
def buildResponse {α : Type} (build : Json → Except Err α) (resp : HttpResponse) :
    Except Err (Option α) :=
  match getData resp with
  | .error e => .error e
  | .ok none => .ok none
  | .ok (some data) =>
    if data.truthy then
      match build data with
      | .error e => .error e
      | .ok m => .ok (some m)
    else .ok none

/-- `Api.episode`: single-resource GET decoded as an `Episode`. -/
def apiEpisode (resp : HttpResponse) : Except Err (Option Episode) :=
  buildResponse Episode.build resp

/-- `Api.season`: single-resource GET decoded as a `Season`. -/
def apiSeason (resp : HttpResponse) : Except Err (Option Season) :=
  buildResponse Season.build resp

/-- `Api.show`: single-resource GET decoded as a `Show`. -/
def apiShow (resp : HttpResponse) : Except Err (Option TvShow) :=
  buildResponse TvShow.build resp

/-- `Api.user`: single-resource GET decoded as a `User`. -/
def apiUser (resp : HttpResponse) : Except Err (Option User) :=
  buildResponse User.build resp

/-- `__get_data` on a 404 returns `None` rather than raising. -/
theorem getData_404 (resp : HttpResponse) (h : resp.status = 404) :
    getData resp = .ok none := by
  rw [getData, if_neg (by rw [h]; decide), if_pos h]

/-- `__get_data` on any 4xx/5xx status other than 404 raises `HTTPError`. -/
theorem getData_httpError (resp : HttpResponse) (h4 : 400 ≤ resp.status)
    (h6 : resp.status < 600) (hn : resp.status ≠ 404) :
    getData resp = .error (.httpError resp.status) := by
  rw [getData]
  by_cases h401 : resp.status = 401
  · rw [if_pos h401, raiseForStatus, if_pos ⟨h4, h6⟩]
  · rw [if_neg h401, if_neg hn, if_pos (show resp.status ≠ 200 by omega),
      raiseForStatus, if_pos ⟨h4, h6⟩]

/-- `__get_data` on a 200 whose body fails JSON parsing returns `None`. -/
theorem getData_badBody (resp : HttpResponse) (h : resp.status = 200)
    (hb : resp.jsonBody = none) : getData resp = .ok none := by
  rw [getData, if_neg (by rw [h]; decide), if_neg (by rw [h]; decide),
    if_neg (by rw [h]; simp), parseBody, hb]

/-- `__build_response` passes a `None`-data result through as `None`. -/
theorem buildResponse_of_none {α : Type} (build : Json → Except Err α)
    (resp : HttpResponse) (h : getData resp = .ok none) :
    buildResponse build resp = .ok none := by
  rw [buildResponse, h]

/-- `__build_response` propagates transport errors. -/
theorem buildResponse_of_error {α : Type} (build : Json → Except Err α)
    (resp : HttpResponse) (e : Err) (h : getData resp = .error e) :
    buildResponse build resp = .error e := by
  rw [buildResponse, h]

/-- **C6.**  For every single-resource GET (episode, season, show, user): a
404 yields a null result rather than an error; a 401 propagates as a
transport-level `HTTPError`; any other 4xx/5xx status propagates as a
transport-level `HTTPError`; and a success response whose body fails JSON
parsing yields a null result rather than an error. -/
theorem C6_single_resource_gets (resp : HttpResponse) :
    (resp.status = 404 →
      apiEpisode resp = .ok none ∧ apiSeason resp = .ok none ∧
      apiShow resp = .ok none ∧ apiUser resp = .ok none) ∧
    (resp.status = 401 →
      apiEpisode resp = .error (.httpError 401) ∧
      apiSeason resp = .error (.httpError 401) ∧
      apiShow resp = .error (.httpError 401) ∧
      apiUser resp = .error (.httpError 401)) ∧
    (400 ≤ resp.status → resp.status < 600 → resp.status ≠ 404 →
      apiEpisode resp = .error (.httpError resp.status) ∧
      apiSeason resp = .error (.httpError resp.status) ∧
      apiShow resp = .error (.httpError resp.status) ∧
      apiUser resp = .error (.httpError resp.status)) ∧
    (resp.status = 200 → resp.jsonBody = none →
      apiEpisode resp = .ok none ∧ apiSeason resp = .ok none ∧
      apiShow resp = .ok none ∧ apiUser resp = .ok none) := by
  refine ⟨?_, ?_, ?_, ?_⟩
  · intro h
    have hg := getData_404 resp h
    exact ⟨buildResponse_of_none _ _ hg, buildResponse_of_none _ _ hg,
      buildResponse_of_none _ _ hg, buildResponse_of_none _ _ hg⟩
  · intro h
    have hg := getData_httpError resp (by omega) (by omega) (by omega)
    rw [h] at hg
    exact ⟨buildResponse_of_error _ _ _ hg, buildResponse_of_error _ _ _ hg,
      buildResponse_of_error _ _ _ hg, buildResponse_of_error _ _ _ hg⟩
  · intro h4 h6 hn
    have hg := getData_httpError resp h4 h6 hn
    exact ⟨buildResponse_of_error _ _ _ hg, buildResponse_of_error _ _ _ hg,
      buildResponse_of_error _ _ _ hg, buildResponse_of_error _ _ _ hg⟩
  · intro h hb
    have hg := getData_badBody resp h hb
    exact ⟨buildResponse_of_none _ _ hg, buildResponse_of_none _ _ hg,
      buildResponse_of_none _ _ hg, buildResponse_of_none _ _ hg⟩

/-- **C6 witness**: the theorem at concrete 404, 401, 500 and bad-body-200
responses, read as episode GETs. -/
theorem C6_single_resource_gets_witness :
    apiEpisode ⟨404, some (Json.obj []), "", []⟩ = .ok none ∧
    apiEpisode ⟨401, some (Json.obj []), "", []⟩ = .error (.httpError 401) ∧
    apiEpisode ⟨500, some (Json.obj []), "", []⟩ = .error (.httpError 500) ∧
    apiEpisode ⟨200, none, "", []⟩ = .ok none :=
  ⟨((C6_single_resource_gets ⟨404, some (Json.obj []), "", []⟩).1 rfl).1,
   ((C6_single_resource_gets ⟨401, some (Json.obj []), "", []⟩).2.1 rfl).1,
   ((C6_single_resource_gets ⟨500, some (Json.obj []), "", []⟩).2.2.1
     (by decide) (by decide) (by decide)).1,
   ((C6_single_resource_gets ⟨200, none, "", []⟩).2.2.2 rfl rfl).1⟩

/-! ## Authentication state and token acquisition -/

/-- The authentication-relevant state of an `Api` instance: the bearer token
(`self.__token`), a generation counter standing for the identity of the
transport session object (`self.__session`, bumped whenever the source
replaces the session), the authenticated user id (`self.user_id`) and the
cached current user (`self._me`). -/
structure ApiState where
  token : Option Json
  session : Nat
  user_id : Option Int
  me : Option User

/-- One `oauth.fetch_token` attempt, as seen by `Api._get_token`: a token, a
designated transient provider error (`AccessDeniedError`, `InvalidClientError`
or `MissingTokenError`, with `str(e)`), or any other exception (uncaught). -/
inductive FetchResult where
  | success : String → FetchResult
  | transient : String → FetchResult
  | fatal : Err → FetchResult

/-- Python `"{0}".format(latest_exception)` when no exception was recorded. -/
def pyFormatLatest : Option String → String
  | none => "None"
  | some d => d

/-- The `for i in range(3)` retry loop of `Api._get_token`, returning the
result and the number of `fetch_token` calls made.  On success the token is
stored, the session is replaced by the oauth session and the cached user is
reset. -/
def getTokenLoop (fetch : Nat → FetchResult) (s : ApiState) :
    Nat → Nat → Option String → (Except Err ApiState) × Nat
  | 0, calls, latest =>
    (.error (.authError (Json.str
      ("Failed to get authentication token: " ++ pyFormatLatest latest))), calls)
  | r + 1, calls, _latest =>
    match fetch calls with
    | .success tok =>
      (.ok { s with
          token := some (Json.str tok)
          session := s.session + 1
          me := none },
        calls + 1)
    | .transient d => getTokenLoop fetch s r (calls + 1) (some d)
    | .fatal e => (.error e, calls + 1)

/-- `Api._get_token`: up to 3 attempts. -/
def getToken (fetch : Nat → FetchResult) (s : ApiState) :
    (Except Err ApiState) × Nat :=
  getTokenLoop fetch s 3 0 none

/-- Unfolding lemma for one loop iteration (the remaining-count is a numeral
in the theorems below, which blocks `rw` with the equation lemmas). -/
theorem getTokenLoop_succ (fetch : Nat → FetchResult) (s : ApiState)
    (r calls : Nat) (latest : Option String) :
    getTokenLoop fetch s (r + 1) calls latest =
      match fetch calls with
      | .success tok =>
        (.ok { s with
            token := some (Json.str tok)
            session := s.session + 1
            me := none },
          calls + 1)
      | .transient d => getTokenLoop fetch s r (calls + 1) (some d)
      | .fatal e => (.error e, calls + 1) := rfl

/-- **C9.**  If every `fetch_token` attempt fails with a designated transient
provider error, `_get_token` makes exactly 3 attempts and then raises
`AuthenticationError` carrying the last provider error's description; an
attempt that succeeds stops the loop immediately (no further calls) and
stores the obtained token (replacing the session and resetting the cached
user). -/
theorem C9_token_retry (fetch : Nat → FetchResult) (s : ApiState) :
    (∀ d0 d1 d2, fetch 0 = .transient d0 → fetch 1 = .transient d1 →
      fetch 2 = .transient d2 →
      getToken fetch s =
        (.error (.authError (Json.str
          ("Failed to get authentication token: " ++ d2))), 3)) ∧
    (∀ k tok, k < 3 → fetch k = .success tok →
      (∀ i, i < k → ∃ d, fetch i = .transient d) →
      getToken fetch s =
        (.ok { s with
            token := some (Json.str tok)
            session := s.session + 1
            me := none },
          k + 1)) := by
  constructor
  · intro d0 d1 d2 h0 h1 h2
    show getTokenLoop fetch s (2 + 1) 0 none = _
    rw [getTokenLoop_succ, h0]
    show getTokenLoop fetch s (1 + 1) 1 (some d0) = _
    rw [getTokenLoop_succ, h1]
    show getTokenLoop fetch s (0 + 1) 2 (some d1) = _
    rw [getTokenLoop_succ, h2]
    show getTokenLoop fetch s 0 3 (some d2) = _
    rw [getTokenLoop]
    rfl
  · intro k tok hk hsucc hpre
    interval_cases k
    · show getTokenLoop fetch s (2 + 1) 0 none = _
      rw [getTokenLoop_succ, hsucc]
    · obtain ⟨d0, h0⟩ := hpre 0 (by omega)
      show getTokenLoop fetch s (2 + 1) 0 none = _
      rw [getTokenLoop_succ, h0]
      show getTokenLoop fetch s (1 + 1) 1 (some d0) = _
      rw [getTokenLoop_succ, hsucc]
    · obtain ⟨d0, h0⟩ := hpre 0 (by omega)
      obtain ⟨d1, h1⟩ := hpre 1 (by omega)
      show getTokenLoop fetch s (2 + 1) 0 none = _
      rw [getTokenLoop_succ, h0]
      show getTokenLoop fetch s (1 + 1) 1 (some d0) = _
      rw [getTokenLoop_succ, h1]
      show getTokenLoop fetch s (0 + 1) 2 (some d1) = _
      rw [getTokenLoop_succ, hsucc]

/-- **C9 witness**: all-transient attempts give the error after 3 calls;
success on the third attempt stops with the token stored. -/
theorem C9_token_retry_witness :
    getToken (fun _ => .transient "denied") ⟨none, 0, none, none⟩ =
      (.error (.authError (Json.str
        ("Failed to get authentication token: " ++ "denied"))), 3) ∧
    getToken (fun n => if n < 2 then .transient "denied" else .success "tok")
        ⟨none, 0, none, none⟩ =
      (.ok ⟨some (Json.str "tok"), 1, none, none⟩, 3) :=
  ⟨(C9_token_retry (fun _ => .transient "denied") ⟨none, 0, none, none⟩).1
      "denied" "denied" "denied" rfl rfl rfl,
   (C9_token_retry (fun n => if n < 2 then .transient "denied" else .success "tok")
      ⟨none, 0, none, none⟩).2 2 "tok" (by omega) rfl
      (fun i hi => ⟨"denied", by interval_cases i <;> rfl⟩)⟩

/-- `result.headers.get(k)` on a header list. -/
def headerGet (hs : List (String × String)) (k : String) : Option String :=
  (hs.find? (fun p => p.1 = k)).map (fun p => p.2)

/-- Python `int(x)` on an optional header value: `int(None)` raises
`TypeError`, a non-numeric string raises `ValueError`. -/
def pyInt : Option String → Except Err Int
  | none => .error .typeError
  | some sv =>
    match sv.toInt? with
    | some n => .ok n
    | none => .error .valueError

/-- `Api.authenticate`, given the response of the credential POST: an
unparseable body raises `AuthenticationError` with status and text; a 401
raises `AuthenticationError` with the body's `error_description`; a 201
replaces the session, stores the token and the `X-User-Id` header as the user
id, and returns the token; any other status falls off the function, returning
`None` with the state untouched. -/
def authenticate (s : ApiState) (resp : HttpResponse) :
    (Except Err (Option Json)) × ApiState :=
  match resp.jsonBody with
  | none =>
    (.error (.authError (Json.str ("Failed to get authentication token: " ++
      toString resp.status ++ "  " ++ resp.text))), s)
  | some data =>
    if resp.status = 401 then
      match data.getItem "error_description" with
      | .error e => (.error e, s)
      | .ok d => (.error (.authError d), s)
    else if resp.status = 201 then
      let s1 := { s with session := s.session + 1 }
      match data.getItem "access_token" with
      | .error e => (.error e, s1)
      | .ok tokJ =>
        let s2 := { s1 with token := some tokJ }
        match pyInt (headerGet resp.headers "X-User-Id") with
        | .error e => (.error e, s2)
        | .ok uid => (.ok (some tokJ), { s2 with user_id := some uid })
    else (.ok none, s)

/-- **C10.**  `authenticate` on a response whose body parses as JSON but
whose status is neither 201 nor 401 returns `None` without raising, and the
authentication state — token, session and user id — keeps its previous
values. -/
theorem C10_authenticate_other_status (s : ApiState) (resp : HttpResponse)
    (d : Json) (hj : resp.jsonBody = some d)
    (h401 : resp.status ≠ 401) (h201 : resp.status ≠ 201) :
    (authenticate s resp).1 = .ok none ∧
    (authenticate s resp).2.token = s.token ∧
    (authenticate s resp).2.session = s.session ∧
    (authenticate s resp).2.user_id = s.user_id := by
  simp only [authenticate, hj]
  rw [if_neg h401, if_neg h201]
  exact ⟨rfl, rfl, rfl, rfl⟩

/-- **C10 witness**: a 400 response with a JSON body leaves a populated
state untouched and returns `None`. -/
theorem C10_authenticate_other_status_witness :
    (authenticate ⟨some (Json.str "t"), 5, some 9, none⟩
      ⟨400, some (Json.obj []), "oops", []⟩).1 = .ok none ∧
    (authenticate ⟨some (Json.str "t"), 5, some 9, none⟩
      ⟨400, some (Json.obj []), "oops", []⟩).2.token = some (Json.str "t") ∧
    (authenticate ⟨some (Json.str "t"), 5, some 9, none⟩
      ⟨400, some (Json.obj []), "oops", []⟩).2.session = 5 ∧
    (authenticate ⟨some (Json.str "t"), 5, some 9, none⟩
      ⟨400, some (Json.obj []), "oops", []⟩).2.user_id = some 9 :=
  C10_authenticate_other_status ⟨some (Json.str "t"), 5, some 9, none⟩
    ⟨400, some (Json.obj []), "oops", []⟩ (Json.obj []) rfl
    (by decide) (by decide)

/-! ## Privileged operations and the authentication gate

Each operation takes a network oracle (request to response), and returns its
result, the updated state, and the list of requests it issued, in order.
Request paths are relative to `END_POINT`; form payloads are not modelled (no
claim observes them). -/

/-- An HTTP request issued by the façade. -/
inductive NetRequest where
  | get : String → NetRequest
  | post : String → NetRequest
  | put : String → NetRequest
  | delete : String → NetRequest
deriving DecidableEq, Repr

/-- A network oracle: the transport's response to each request. -/
abbrev Net := NetRequest → HttpResponse

/-- Python truthiness of `self.user_id` (`None` and `0` are falsy). -/
def pyFalsyUserId : Option Int → Bool
  | none => true
  | some n => n = 0

/-- The `authenticated` decorator's guard:
`not api.user_id and not api._me`. -/
def gateBlocked (s : ApiState) : Bool :=
  pyFalsyUserId s.user_id && s.me.isNone

/-- Set only the `queue_dirty` flag. -/
def User.withDirty : User → Bool → User
  | .mk a t q _, d => .mk a t q d

/-- The `Api.me` property: a cached user is returned as is; otherwise, with a
truthy user id, the user is fetched once and cached (even if the fetch comes
back `None`); with no (or a falsy) user id, `None` is returned without a
network call. -/
def resolveMe (net : Net) (s : ApiState) :
    (Except Err (Option User)) × ApiState × List NetRequest :=
  match s.me with
  | some u => (.ok (some u), s, [])
  | none =>
    match s.user_id with
    | some uid =>
      if uid ≠ 0 then
        let req := NetRequest.get ("users/" ++ toString uid)
        match apiUser (net req) with
        | .error e => (.error e, s, [req])
        | .ok ou => (.ok ou, { s with me := ou }, [req])
      else (.ok none, s, [])
    | none => (.ok none, s, [])

/-- `Api.update_user_details`: gate check, then the same-user check, then one
PUT; a 2xx response's body replaces the cached current user with a freshly
built one. -/
def updateUserDetails (net : Net) (s : ApiState) (target : Int) :
    (Except Err Unit) × ApiState × List NetRequest :=
  if gateBlocked s then (.error .notAuthenticated, s, [])
  else if s.user_id ≠ some target then (.error .notAuthenticated, s, [])
  else
    let req := NetRequest.put ("users/" ++ toString target)
    let resp := net req
    match raiseForStatus resp.status with
    | .error e => (.error e, s, [req])
    | .ok () =>
      match resp.jsonBody with
      | none => (.error .valueError, s, [req])
      | some j =>
        match User.build j with
        | .error e => (.error e, s, [req])
        | .ok u => (.ok (), { s with me := some u }, [req])

/-- `Api.add_episode_to_queue`: gate check, one POST, then the current user's
cached queue is marked dirty (an absent current user raises
`AttributeError` on `None`), and the `X-Message` header is returned. -/
def addEpisodeToQueue (net : Net) (s : ApiState) (eid : Int) :
    (Except Err (Option String)) × ApiState × List NetRequest :=
  if gateBlocked s then (.error .notAuthenticated, s, [])
  else
    let req := NetRequest.post ("episodes/" ++ toString eid ++ "/add-to-queue")
    let resp := net req
    match raiseForStatus resp.status with
    | .error e => (.error e, s, [req])
    | .ok () =>
      match resolveMe net s with
      | (.error e, s', reqs) => (.error e, s', req :: reqs)
      | (.ok none, s', reqs) => (.error .attributeError, s', req :: reqs)
      | (.ok (some u), s', reqs) =>
        (.ok (headerGet resp.headers "X-Message"),
          { s' with me := some (u.withDirty true) }, req :: reqs)

/-- `Api.remove_episode_from_queue`: as `add_episode_to_queue`, with a
DELETE. -/
def removeEpisodeFromQueue (net : Net) (s : ApiState) (eid : Int) :
    (Except Err (Option String)) × ApiState × List NetRequest :=
  if gateBlocked s then (.error .notAuthenticated, s, [])
  else
    let req := NetRequest.delete
      ("episodes/" ++ toString eid ++ "/remove-from-queue")
    let resp := net req
    match raiseForStatus resp.status with
    | .error e => (.error e, s, [req])
    | .ok () =>
      match resolveMe net s with
      | (.error e, s', reqs) => (.error e, s', req :: reqs)
      | (.ok none, s', reqs) => (.error .attributeError, s', req :: reqs)
      | (.ok (some u), s', reqs) =>
        (.ok (headerGet resp.headers "X-Message"),
          { s' with me := some (u.withDirty true) }, req :: reqs)

/-- `Api.mark_episode_watched`: gate check, one PUT, raise for status. -/
def markEpisodeWatched (net : Net) (s : ApiState) (eid : Int) :
    (Except Err Unit) × ApiState × List NetRequest :=
  if gateBlocked s then (.error .notAuthenticated, s, [])
  else
    let req := NetRequest.put
      ("episodes/" ++ toString eid ++ "/mark-as-watched")
    let resp := net req
    match raiseForStatus resp.status with
    | .error e => (.error e, s, [req])
    | .ok () => (.ok (), s, [req])

/-- **C4.**  With no user id and no cached current user, every privileged
operation raises `NotAuthenticatedError` before any network request is
issued (the request list is empty and the state untouched); and
`update_user_details` additionally does so, in any state, whenever the
target user id differs from the authenticated user id. -/
theorem C4_auth_gate (net : Net) (s : ApiState) :
    (s.user_id = none → s.me = none →
      (∀ target, updateUserDetails net s target = (.error .notAuthenticated, s, [])) ∧
      (∀ eid, addEpisodeToQueue net s eid = (.error .notAuthenticated, s, [])) ∧
      (∀ eid, removeEpisodeFromQueue net s eid = (.error .notAuthenticated, s, [])) ∧
      (∀ eid, markEpisodeWatched net s eid = (.error .notAuthenticated, s, []))) ∧
    (∀ target, s.user_id ≠ some target →
      updateUserDetails net s target = (.error .notAuthenticated, s, [])) := by
  constructor
  · intro hu hm
    have hg : gateBlocked s = true := by
      rw [gateBlocked, hu, hm]
      rfl
    exact ⟨fun _ => by rw [updateUserDetails, if_pos hg],
      fun _ => by rw [addEpisodeToQueue, if_pos hg],
      fun _ => by rw [removeEpisodeFromQueue, if_pos hg],
      fun _ => by rw [markEpisodeWatched, if_pos hg]⟩
  · intro target hne
    rw [updateUserDetails]
    by_cases hg : gateBlocked s = true
    · rw [if_pos hg]
    · rw [if_neg hg, if_pos hne]

/-- **C4 witness**: the theorem at an unauthenticated state (applied to
`update_user_details`) and at an authenticated state with a different target
user id. -/
theorem C4_auth_gate_witness :
    updateUserDetails (fun _ => ⟨200, some (Json.obj []), "", []⟩)
      ⟨some (Json.str "t"), 0, none, none⟩ 7 =
      (.error .notAuthenticated, ⟨some (Json.str "t"), 0, none, none⟩, []) ∧
    updateUserDetails (fun _ => ⟨200, some (Json.obj []), "", []⟩)
      ⟨some (Json.str "t"), 0, some 9, none⟩ 7 =
      (.error .notAuthenticated, ⟨some (Json.str "t"), 0, some 9, none⟩, []) :=
  ⟨((C4_auth_gate (fun _ => ⟨200, some (Json.obj []), "", []⟩)
      ⟨some (Json.str "t"), 0, none, none⟩).1 rfl rfl).1 7,
   (C4_auth_gate (fun _ => ⟨200, some (Json.obj []), "", []⟩)
      ⟨some (Json.str "t"), 0, some 9, none⟩).2 7 (by decide)⟩

/-! ## Lazy relations (`_api`-backed properties with caches)

The `_api` back-reference is modelled as a port of the five calls the lazy
accessors make; each accessor returns its result, the updated object, and the
number of fetches it performed (0 or 1). -/

/-- The façade calls available to resources through their `_api` reference.
Arguments are the stored attribute values used to form the request path. -/
structure ApiPort where
  season : Json → Option Season
  tvShow : Json → Option TvShow
  seasonEpisodes : Json → Option (List Episode)
  showSeasons : Json → Option (List Season)
  userQueue : Json → List Episode

/-- Truthiness of a `None`-or-list cache field (`None` and `[]` are falsy). -/
def pyFalsyOptList {α : Type} : Option (List α) → Bool
  | none => true
  | some l => l.isEmpty

/-- `Episode.season`: fetch by `season_id` if `_season` is falsy (`None`),
else return the cache. -/
def Episode.seasonRel (api : ApiPort) (e : Episode) :
    Option Season × Episode × Nat :=
  match e.seasonCache with
  | some s => (some s, e, 0)
  | none =>
    let r := api.season (Attrs.get e.attrs "season_id")
    (r, e.withSeasonCache r, 1)

/-- `Season.show`: fetch by `show_id` if `_show` is falsy (`None`). -/
def Season.showRel (api : ApiPort) (s : Season) :
    Option TvShow × Season × Nat :=
  match s.showCache with
  | some sh => (some sh, s, 0)
  | none =>
    let r := api.tvShow (Attrs.get s.attrs "show_id")
    (r, s.withShowCache r, 1)

/-- `Season.episodes`: fetch by `id_` if `_episodes` is falsy (`None` or
empty). -/
def Season.episodesRel (api : ApiPort) (s : Season) :
    Option (List Episode) × Season × Nat :=
  if pyFalsyOptList s.episodesCache then
    let r := api.seasonEpisodes (Attrs.get s.attrs "id_")
    (r, s.withEpisodesCache r, 1)
  else (s.episodesCache, s, 0)

/-- `Show.seasons`: fetch by `id_` if `_seasons` is falsy (`None` or
empty). -/
def TvShow.seasonsRel (api : ApiPort) (v : TvShow) :
    Option (List Season) × TvShow × Nat :=
  if pyFalsyOptList v.seasonsCache then
    let r := api.showSeasons (Attrs.get v.attrs "id_")
    (r, v.withSeasonsCache r, 1)
  else (v.seasonsCache, v, 0)

/-- `User.queue`: re-fetch (and clear the flag) if `_queue` is falsy (`None`
or empty) or the dirty flag is set, else return the cache. -/
def User.queueRel (api : ApiPort) (u : User) :
    List Episode × User × Nat :=
  if pyFalsyOptList u.queueCache || u.queue_dirty then
    let r := api.userQueue (Attrs.get u.attrs "id_")
    (r, u.withQueue (some r) false, 1)
  else (u.queueCache.getD [], u, 0)

/-- Cache update projections. -/
theorem Episode.withSeasonCache_cache (e : Episode) (r : Option Season) :
    (e.withSeasonCache r).seasonCache = r := by
  cases e; rfl

theorem Season.withShowCache_cache (s : Season) (r : Option TvShow) :
    (s.withShowCache r).showCache = r := by
  cases s; rfl

theorem Season.withEpisodesCache_cache (s : Season) (r : Option (List Episode)) :
    (s.withEpisodesCache r).episodesCache = r := by
  cases s; rfl

theorem TvShow.withSeasonsCache_cache (v : TvShow) (r : Option (List Season)) :
    (v.withSeasonsCache r).seasonsCache = r := by
  cases v; rfl

theorem User.withQueue_cache (u : User) (r : Option (List Episode)) (d : Bool) :
    (u.withQueue r d).queueCache = r ∧ (u.withQueue r d).queue_dirty = d := by
  cases u; exact ⟨rfl, rfl⟩

/-- **C5 counterexample.**  A first access to an empty queue populates the
cache (`_queue = []`) and leaves the dirty flag clear, yet the next access
fetches again: the truthiness test `if not self._queue` treats the cached
empty list as "not populated", so emptiness acts as an invalidation beside
the dirty flag. -/
theorem C5_counterexample :
    (User.queueRel
      ⟨fun _ => none, fun _ => none, fun _ => none, fun _ => none, fun _ => []⟩
      (User.mk [("id_", Json.num 1)] [] none false)).2.1.queueCache = some [] ∧
    (User.queueRel
      ⟨fun _ => none, fun _ => none, fun _ => none, fun _ => none, fun _ => []⟩
      (User.mk [("id_", Json.num 1)] [] none false)).2.1.queue_dirty = false ∧
    (User.queueRel
      ⟨fun _ => none, fun _ => none, fun _ => none, fun _ => none, fun _ => []⟩
      ((User.queueRel
        ⟨fun _ => none, fun _ => none, fun _ => none, fun _ => none, fun _ => []⟩
        (User.mk [("id_", Json.num 1)] [] none false)).2.1)).2.2 = 1 :=
  ⟨rfl, rfl, rfl⟩

/-- **C5** (amended).  After an access that populates a lazy relation with a
truthy value (a non-null object for `Episode.season` / `Season.show`; a
non-null, non-empty list for `Season.episodes` / `Show.seasons` /
`User.queue`), every subsequent access returns the cached value with no
further fetch and no state change; `User.queue` is the one exception: a set
dirty flag forces a re-fetch, after which the flag is clear. -/
theorem C5_lazy_caches (api : ApiPort) :
    (∀ e s e' n, Episode.seasonRel api e = (some s, e', n) →
      Episode.seasonRel api e' = (some s, e', 0)) ∧
    (∀ sn sh sn' n, Season.showRel api sn = (some sh, sn', n) →
      Season.showRel api sn' = (some sh, sn', 0)) ∧
    (∀ sn l sn' n, Season.episodesRel api sn = (some l, sn', n) → l ≠ [] →
      Season.episodesRel api sn' = (some l, sn', 0)) ∧
    (∀ v l v' n, TvShow.seasonsRel api v = (some l, v', n) → l ≠ [] →
      TvShow.seasonsRel api v' = (some l, v', 0)) ∧
    (∀ u l u' n, User.queueRel api u = (l, u', n) → l ≠ [] →
      User.queueRel api u' = (l, u', 0)) ∧
    (∀ u, u.queue_dirty = true →
      (User.queueRel api u).2.2 = 1 ∧
      (User.queueRel api u).2.1.queue_dirty = false) := by
  refine ⟨?_, ?_, ?_, ?_, ?_, ?_⟩
  · intro e s e' n h
    cases hc : e.seasonCache with
    | some s0 =>
      rw [show Episode.seasonRel api e = (some s0, e, 0) from by
        simp [Episode.seasonRel, hc]] at h
      simp only [Prod.mk.injEq] at h
      obtain ⟨h1, h2, -⟩ := h
      subst h2
      simp [Episode.seasonRel, hc, h1]
    | none =>
      rw [show Episode.seasonRel api e =
          (api.season (Attrs.get e.attrs "season_id"),
           e.withSeasonCache (api.season (Attrs.get e.attrs "season_id")), 1) from by
        simp [Episode.seasonRel, hc]] at h
      simp only [Prod.mk.injEq] at h
      obtain ⟨h1, h2, -⟩ := h
      subst h2
      have hc2 : (e.withSeasonCache
          (api.season (Attrs.get e.attrs "season_id"))).seasonCache = some s := by
        rw [Episode.withSeasonCache_cache, h1]
      simp [Episode.seasonRel, hc2]
  · intro sn sh sn' n h
    cases hc : sn.showCache with
    | some sh0 =>
      rw [show Season.showRel api sn = (some sh0, sn, 0) from by
        simp [Season.showRel, hc]] at h
      simp only [Prod.mk.injEq] at h
      obtain ⟨h1, h2, -⟩ := h
      subst h2
      simp [Season.showRel, hc, h1]
    | none =>
      rw [show Season.showRel api sn =
          (api.tvShow (Attrs.get sn.attrs "show_id"),
           sn.withShowCache (api.tvShow (Attrs.get sn.attrs "show_id")), 1) from by
        simp [Season.showRel, hc]] at h
      simp only [Prod.mk.injEq] at h
      obtain ⟨h1, h2, -⟩ := h
      subst h2
      have hc2 : (sn.withShowCache
          (api.tvShow (Attrs.get sn.attrs "show_id"))).showCache = some sh := by
        rw [Season.withShowCache_cache, h1]
      simp [Season.showRel, hc2]
  · intro sn l sn' n h hl
    by_cases hc : pyFalsyOptList sn.episodesCache = true
    · rw [show Season.episodesRel api sn =
          (api.seasonEpisodes (Attrs.get sn.attrs "id_"),
           sn.withEpisodesCache (api.seasonEpisodes (Attrs.get sn.attrs "id_")), 1) from by
        simp [Season.episodesRel, hc]] at h
      simp only [Prod.mk.injEq] at h
      obtain ⟨h1, h2, -⟩ := h
      subst h2
      have hc2 : pyFalsyOptList (sn.withEpisodesCache
          (api.seasonEpisodes (Attrs.get sn.attrs "id_"))).episodesCache = false := by
        rw [Season.withEpisodesCache_cache, h1]
        simp [pyFalsyOptList, hl]
      rw [show Season.episodesRel api
            (sn.withEpisodesCache (api.seasonEpisodes (Attrs.get sn.attrs "id_"))) =
          ((sn.withEpisodesCache
            (api.seasonEpisodes (Attrs.get sn.attrs "id_"))).episodesCache,
           sn.withEpisodesCache (api.seasonEpisodes (Attrs.get sn.attrs "id_")), 0) from by
        simp [Season.episodesRel, hc2]]
      rw [Season.withEpisodesCache_cache, h1]
    · rw [show Season.episodesRel api sn = (sn.episodesCache, sn, 0) from by
        simp [Season.episodesRel, hc]] at h
      simp only [Prod.mk.injEq] at h
      obtain ⟨h1, h2, -⟩ := h
      subst h2
      rw [show Season.episodesRel api sn = (sn.episodesCache, sn, 0) from by
        simp [Season.episodesRel, hc]]
      rw [h1]
  · intro v l v' n h hl
    by_cases hc : pyFalsyOptList v.seasonsCache = true
    · rw [show TvShow.seasonsRel api v =
          (api.showSeasons (Attrs.get v.attrs "id_"),
           v.withSeasonsCache (api.showSeasons (Attrs.get v.attrs "id_")), 1) from by
        simp [TvShow.seasonsRel, hc]] at h
      simp only [Prod.mk.injEq] at h
      obtain ⟨h1, h2, -⟩ := h
      subst h2
      have hc2 : pyFalsyOptList (v.withSeasonsCache
          (api.showSeasons (Attrs.get v.attrs "id_"))).seasonsCache = false := by
        rw [TvShow.withSeasonsCache_cache, h1]
        simp [pyFalsyOptList, hl]
      rw [show TvShow.seasonsRel api
            (v.withSeasonsCache (api.showSeasons (Attrs.get v.attrs "id_"))) =
          ((v.withSeasonsCache
            (api.showSeasons (Attrs.get v.attrs "id_"))).seasonsCache,
           v.withSeasonsCache (api.showSeasons (Attrs.get v.attrs "id_")), 0) from by
        simp [TvShow.seasonsRel, hc2]]
      rw [TvShow.withSeasonsCache_cache, h1]
    · rw [show TvShow.seasonsRel api v = (v.seasonsCache, v, 0) from by
        simp [TvShow.seasonsRel, hc]] at h
      simp only [Prod.mk.injEq] at h
      obtain ⟨h1, h2, -⟩ := h
      subst h2
      rw [show TvShow.seasonsRel api v = (v.seasonsCache, v, 0) from by
        simp [TvShow.seasonsRel, hc]]
      rw [h1]
  · intro u l u' n h hl
    by_cases hc : (pyFalsyOptList u.queueCache || u.queue_dirty) = true
    · rw [show User.queueRel api u =
          (api.userQueue (Attrs.get u.attrs "id_"),
           u.withQueue (some (api.userQueue (Attrs.get u.attrs "id_"))) false, 1) from by
        simp [User.queueRel, hc]] at h
      simp only [Prod.mk.injEq] at h
      obtain ⟨h1, h2, -⟩ := h
      subst h2
      have hcache := User.withQueue_cache u
        (some (api.userQueue (Attrs.get u.attrs "id_"))) false
      have hc2 : (pyFalsyOptList (u.withQueue
          (some (api.userQueue (Attrs.get u.attrs "id_"))) false).queueCache ||
          (u.withQueue (some (api.userQueue (Attrs.get u.attrs "id_"))) false).queue_dirty)
          = false := by
        rw [hcache.1, hcache.2, h1]
        simp [pyFalsyOptList, hl]
      rw [show User.queueRel api
            (u.withQueue (some (api.userQueue (Attrs.get u.attrs "id_"))) false) =
          ((u.withQueue (some (api.userQueue (Attrs.get u.attrs "id_")))
              false).queueCache.getD [],
           u.withQueue (some (api.userQueue (Attrs.get u.attrs "id_"))) false, 0) from by
        simp only [User.queueRel, hc2]
        rw [if_neg Bool.false_ne_true]]
      rw [hcache.1, h1]
      rfl
    · rw [show User.queueRel api u = (u.queueCache.getD [], u, 0) from by
        simp only [User.queueRel]
        rw [if_neg hc]] at h
      simp only [Prod.mk.injEq] at h
      obtain ⟨h1, h2, -⟩ := h
      subst h2
      rw [show User.queueRel api u = (u.queueCache.getD [], u, 0) from by
        simp only [User.queueRel]
        rw [if_neg hc]]
      rw [h1]
  · intro u hd
    have hc : (pyFalsyOptList u.queueCache || u.queue_dirty) = true := by
      rw [hd, Bool.or_true]
    have hcache := User.withQueue_cache u
      (some (api.userQueue (Attrs.get u.attrs "id_"))) false
    rw [show User.queueRel api u =
        (api.userQueue (Attrs.get u.attrs "id_"),
         u.withQueue (some (api.userQueue (Attrs.get u.attrs "id_"))) false, 1) from by
      simp [User.queueRel, hc]]
    exact ⟨rfl, hcache.2⟩

/-- **C5 witness**: the amended theorem applied to a concrete port — a second
season access on an episode whose first access populated the cache is served
from the cache with no fetch, and a dirty queue re-fetches once and clears
the flag. -/
theorem C5_lazy_caches_witness :
    Episode.seasonRel
      ⟨fun _ => some (Season.mk [] none none), fun _ => none, fun _ => none,
        fun _ => none, fun _ => [Episode.mk [] [] none none none]⟩
      (Episode.mk [("season_id", Json.num 4)] [] none
        (some (Season.mk [] none none)) none) =
      (some (Season.mk [] none none),
        Episode.mk [("season_id", Json.num 4)] [] none
          (some (Season.mk [] none none)) none, 0) ∧
    (User.queueRel
      ⟨fun _ => some (Season.mk [] none none), fun _ => none, fun _ => none,
        fun _ => none, fun _ => [Episode.mk [] [] none none none]⟩
      (User.mk [("id_", Json.num 1)] []
        (some [Episode.mk [] [] none none none]) true)).2.2 = 1 ∧
    (User.queueRel
      ⟨fun _ => some (Season.mk [] none none), fun _ => none, fun _ => none,
        fun _ => none, fun _ => [Episode.mk [] [] none none none]⟩
      (User.mk [("id_", Json.num 1)] []
        (some [Episode.mk [] [] none none none]) true)).2.1.queue_dirty = false := by
  refine ⟨?_, ?_⟩
  · exact (C5_lazy_caches _).1
      (Episode.mk [("season_id", Json.num 4)] [] none none none)
      (Season.mk [] none none)
      (Episode.mk [("season_id", Json.num 4)] [] none
        (some (Season.mk [] none none)) none) 1 rfl
  · exact (C5_lazy_caches _).2.2.2.2.2
      (User.mk [("id_", Json.num 1)] []
        (some [Episode.mk [] [] none none none]) true) rfl

/-! ## The pagination engine (`Api.__get_multiple` / `Api.__pager`)

The backend is a response oracle indexed by page number (the only request
parameter the engine varies).  The generator state is the current page number
and the items of the fetched page not yet yielded; `next` is one `next()`
call on the generator, `drain` iterates it for a bounded number of calls. -/

/-- `Api.__get_multiple`: `None` for falsy data, else one decoded item per
iterated element, each optionally unwrapped under `key` first. -/
def getMultiple {α : Type} (build : Json → Except Err α) (key : Option String)
    (resp : HttpResponse) : Except Err (Option (List α)) :=
  match getData resp with
  | .error e => .error e
  | .ok none => .ok none
  | .ok (some data) =>
    if data.truthy then
      match data.iter with
      | .error e => .error e
      | .ok items =>
        match (items.mapM (fun item =>
          match key with
          | some k =>
            match item.getItem k with
            | .error e => .error e
            | .ok it => build it
          | none => build item) : Except Err (List α)) with
        | .error e => .error e
        | .ok l => .ok (some l)
    else .ok none

/-- The suspended state of an `Api.__pager` generator: the page the next
request will ask for, and the already-fetched items not yet yielded. -/
structure PagerGen (α : Type) where
  page : Nat
  buffer : List α

/-- A fresh `__pager` generator starting at the configured page. -/
def pagerStart {α : Type} (page : Nat) : PagerGen α :=
  ⟨page, []⟩

/-- One `next()` call on the generator: yield from the buffer if non-empty;
otherwise request the current page; a falsy result (absent or empty) ends the
sequence, else the first item is yielded and the page number advances. -/
def PagerGen.next {α : Type} (build : Json → Except Err α) (key : Option String)
    (pages : Nat → HttpResponse) : PagerGen α → Except Err (Option (α × PagerGen α))
  | ⟨page, x :: rest⟩ => .ok (some (x, ⟨page, rest⟩))
  | ⟨page, []⟩ =>
    match getMultiple build key (pages page) with
    | .error e => .error e
    | .ok none => .ok none
    | .ok (some []) => .ok none
    | .ok (some (x :: rest)) => .ok (some (x, ⟨page + 1, rest⟩))

/-- Iterate the generator for at most `fuel` `next()` calls, collecting the
yielded items and the final suspended state. -/
def PagerGen.drain {α : Type} (build : Json → Except Err α) (key : Option String)
    (pages : Nat → HttpResponse) : Nat → PagerGen α → Except Err (List α × PagerGen α)
  | 0, g => .ok ([], g)
  | fuel + 1, g =>
    match PagerGen.next build key pages g with
    | .error e => .error e
    | .ok none => .ok ([], g)
    | .ok (some (x, g')) =>
      match PagerGen.drain build key pages fuel g' with
      | .error e => .error e
      | .ok (xs, gf) => .ok (x :: xs, gf)

/-- Unfolding lemma for one `drain` step (numeral-proof friendliness). -/
theorem PagerGen.drain_succ {α : Type} (build : Json → Except Err α)
    (key : Option String) (pages : Nat → HttpResponse) (fuel : Nat)
    (g : PagerGen α) :
    PagerGen.drain build key pages (fuel + 1) g =
      match PagerGen.next build key pages g with
      | .error e => .error e
      | .ok none => .ok ([], g)
      | .ok (some (x, g')) =>
        match PagerGen.drain build key pages fuel g' with
        | .error e => .error e
        | .ok (xs, gf) => .ok (x :: xs, gf) := rfl

/-- `next` on a non-empty buffer yields its head without a request. -/
theorem PagerGen.next_cons {α : Type} (build : Json → Except Err α)
    (key : Option String) (pages : Nat → HttpResponse) (page : Nat) (x : α)
    (rest : List α) :
    PagerGen.next build key pages ⟨page, x :: rest⟩ =
      .ok (some (x, ⟨page, rest⟩)) := rfl

/-- `next` on an empty buffer requests the current page. -/
theorem PagerGen.next_nil {α : Type} (build : Json → Except Err α)
    (key : Option String) (pages : Nat → HttpResponse) (page : Nat) :
    PagerGen.next build key pages (⟨page, []⟩ : PagerGen α) =
      match getMultiple build key (pages page) with
      | .error e => .error e
      | .ok none => .ok none
      | .ok (some []) => .ok none
      | .ok (some (x :: rest)) => .ok (some (x, ⟨page + 1, rest⟩)) := rfl

/-- Draining first serves the buffered items, then continues from the same
page with an empty buffer. -/
theorem PagerGen.drain_buffer {α : Type} (build : Json → Except Err α)
    (key : Option String) (pages : Nat → HttpResponse) :
    ∀ (buf : List α) (page fuel : Nat) (xs : List α) (gf : PagerGen α),
      PagerGen.drain build key pages fuel (⟨page, []⟩ : PagerGen α) = .ok (xs, gf) →
      PagerGen.drain build key pages (buf.length + fuel) ⟨page, buf⟩ =
        .ok (buf ++ xs, gf)
  | [], page, fuel, xs, gf => by
    intro h
    simpa using h
  | x :: rest, page, fuel, xs, gf => by
    intro h
    have ih := PagerGen.drain_buffer build key pages rest page fuel xs gf h
    rw [show (x :: rest).length + fuel = (rest.length + fuel) + 1 from by
      simp [Nat.succ_add]]
    rw [PagerGen.drain_succ, PagerGen.next_cons]
    show (match PagerGen.drain build key pages (rest.length + fuel)
        (⟨page, rest⟩ : PagerGen α) with
      | Except.error e => Except.error e
      | Except.ok (xs, gf) =>
        (Except.ok (x :: xs, gf) : Except Err (List α × PagerGen α))) =
      Except.ok (x :: rest ++ xs, gf)
    rw [ih]
    rfl

/-- Draining a fresh generator over `k` non-empty pages followed by an empty
or absent page yields exactly the pages' items in order, ending suspended at
the first falsy page. -/
theorem pager_drain_pages {α : Type} (build : Json → Except Err α)
    (key : Option String) (pages : Nat → HttpResponse) :
    ∀ (k P : Nat) (L : Nat → List α),
      (∀ i, i < k → getMultiple build key (pages (P + i)) = .ok (some (L i)) ∧ L i ≠ []) →
      (getMultiple build key (pages (P + k)) = .ok none ∨
        getMultiple build key (pages (P + k)) = .ok (some [])) →
      PagerGen.drain build key pages ((((List.range k).map L).flatten).length + 1)
          (⟨P, []⟩ : PagerGen α) =
        .ok (((List.range k).map L).flatten, ⟨P + k, []⟩)
  | 0, P, L, hp, he => by
    show PagerGen.drain build key pages (0 + 1) (⟨P, []⟩ : PagerGen α) =
      Except.ok ([], (⟨P + 0, []⟩ : PagerGen α))
    rw [PagerGen.drain_succ, PagerGen.next_nil]
    rcases he with he | he <;> rw [Nat.add_zero] at he <;> rw [he] <;> rfl
  | k + 1, P, L, hp, he => by
    obtain ⟨h0, h0ne⟩ := hp 0 (by omega)
    rw [Nat.add_zero] at h0
    obtain ⟨x, rest, hx⟩ : ∃ x rest, L 0 = x :: rest := by
      cases hL : L 0 with
      | nil => exact absurd hL h0ne
      | cons a b => exact ⟨a, b, rfl⟩
    have hIH := pager_drain_pages build key pages k (P + 1) (L ∘ Nat.succ)
      (fun i hi => by
        have := hp (i + 1) (by omega)
        rwa [show P + (i + 1) = P + 1 + i from by omega] at this)
      (by rwa [show P + (k + 1) = P + 1 + k from by omega] at he)
    rw [List.range_succ_eq_map, List.map_cons, List.map_map, List.flatten_cons]
    set Jc := ((List.range k).map (L ∘ Nat.succ)).flatten with hJc
    rw [hx] at h0 ⊢
    rw [show ((x :: rest ++ Jc).length + 1) = ((rest ++ Jc).length + 1) + 1 from by
      simp]
    rw [PagerGen.drain_succ, PagerGen.next_nil, h0]
    show (match PagerGen.drain build key pages ((rest ++ Jc).length + 1)
        (⟨P + 1, rest⟩ : PagerGen α) with
      | Except.error e => Except.error e
      | Except.ok (xs, gf) =>
        (Except.ok (x :: xs, gf) : Except Err (List α × PagerGen α))) =
      Except.ok (x :: rest ++ Jc, ⟨P + (k + 1), []⟩)
    have hdb := PagerGen.drain_buffer build key pages rest (P + 1)
      (Jc.length + 1) Jc ⟨P + 1 + k, []⟩ hIH
    rw [show (rest ++ Jc).length + 1 = rest.length + (Jc.length + 1) from by
      simp [List.length_append, Nat.add_assoc]]
    rw [hdb]
    rw [show P + 1 + k = P + (k + 1) from by omega]
    rfl

/-- **C3.**  Paginating with any item decoder and optional unwrap key, over a
backend whose pages from the start page `P` are non-empty up to page
`P + k - 1` and falsy (absent or empty) at page `P + k`: the generator yields
exactly the pages' items in server order, page after page, ending the first
time a page request returns an empty or absent item list; the exhausted
generator state answers `None` to every further `next()` call (iterating it
again yields nothing); and a fresh generator (`pagerStart P`) restarts from
the configured start page — the first conclusion is precisely about such a
fresh generator. -/
theorem C3_pagination {α : Type} (build : Json → Except Err α)
    (key : Option String) (pages : Nat → HttpResponse) (k P : Nat)
    (L : Nat → List α)
    (hp : ∀ i, i < k → getMultiple build key (pages (P + i)) = .ok (some (L i)) ∧ L i ≠ [])
    (he : getMultiple build key (pages (P + k)) = .ok none ∨
      getMultiple build key (pages (P + k)) = .ok (some [])) :
    PagerGen.drain build key pages ((((List.range k).map L).flatten).length + 1)
        (pagerStart P) = .ok (((List.range k).map L).flatten, ⟨P + k, []⟩) ∧
    PagerGen.next build key pages (⟨P + k, []⟩ : PagerGen α) = .ok none ∧
    (∀ fuel, PagerGen.drain build key pages fuel (⟨P + k, []⟩ : PagerGen α) =
      .ok ([], ⟨P + k, []⟩)) := by
  have hnext : PagerGen.next build key pages (⟨P + k, []⟩ : PagerGen α) = .ok none := by
    rw [PagerGen.next_nil]
    rcases he with he | he <;> rw [he]
  refine ⟨pager_drain_pages build key pages k P L hp he, hnext, ?_⟩
  intro fuel
  cases fuel with
  | zero => rfl
  | succ f => rw [PagerGen.drain_succ, hnext]

/-- **C3 witness**: two pages of two items each starting at page 1, empty at
page 3 — the drained sequence is page 1 then page 2 in order, and the
exhausted generator yields nothing. -/
theorem C3_pagination_witness :
    PagerGen.drain (fun j => Except.ok j) none
      (fun n => if n < 3 then ⟨200, some (Json.arr [Json.num 1, Json.num 2]), "", []⟩
        else ⟨200, some (Json.arr []), "", []⟩) 5 (pagerStart 1) =
      .ok ([Json.num 1, Json.num 2, Json.num 1, Json.num 2],
        (⟨3, []⟩ : PagerGen Json)) ∧
    PagerGen.next (fun j => Except.ok j) none
      (fun n => if n < 3 then ⟨200, some (Json.arr [Json.num 1, Json.num 2]), "", []⟩
        else ⟨200, some (Json.arr []), "", []⟩) (⟨3, []⟩ : PagerGen Json) =
      .ok none := by
  have h := C3_pagination (fun j => Except.ok j) none
    (fun n => if n < 3 then ⟨200, some (Json.arr [Json.num 1, Json.num 2]), "", []⟩
      else ⟨200, some (Json.arr []), "", []⟩) 2 1
    (fun _ => [Json.num 1, Json.num 2])
    (fun i hi => by interval_cases i <;> exact ⟨rfl, by decide⟩)
    (Or.inl rfl)
  exact ⟨h.1, h.2.1⟩

end RtApi
